import Mathlib

/-!
Verification of the agent tool-calling core of the tg-bot-agent repository.

The development shallowly embeds the Python sources:
  app/tools/registry.py      (ToolRegistry)
  app/llm/router.py          (LLMRouter.next_step and its heuristic fallback)
  app/agent/loop.py          (AgentLoopEngine)
  app/core/runtime.py        (AgentRuntime._run_agent_loop and helpers)
  app/telegram/gateway.py    (TelegramGateway per-user concurrency controller)

Python dict/list/str/number values that flow through tool arguments and tool
result data are embedded as the JSON-like type JValue.  Numbers are kept as
their decimal display string: the code never computes with them, it only
serializes them (json.dumps) or formats them (f-strings), and both renderings
agree with the stored string for the int/float literals that occur here.

Effects (registry dispatch, memory persistence, planner invocations) are made
observable through an explicit trace of events returned next to each result,
so that the temporal claims about a run become statements about its trace.
-/

/-- JSON-like runtime value standing for the Python values that flow through
tool arguments and tool result data.  `num` carries the decimal display
string of the Python int/float. -/
inductive JValue where
  | null : JValue
  | bool : Bool → JValue
  | num : String → JValue
  | str : String → JValue
  | arr : List JValue → JValue
  | obj : List (String × JValue) → JValue

mutual

/-- Decidable equality on `JValue` (the usual structural one; `deriving` does
not yet handle this nested inductive). -/
def decEqJValue : (a b : JValue) → Decidable (a = b)
  | .null, .null => .isTrue rfl
  | .null, .bool _ => .isFalse (fun h => nomatch h)
  | .null, .num _ => .isFalse (fun h => nomatch h)
  | .null, .str _ => .isFalse (fun h => nomatch h)
  | .null, .arr _ => .isFalse (fun h => nomatch h)
  | .null, .obj _ => .isFalse (fun h => nomatch h)
  | .bool _, .null => .isFalse (fun h => nomatch h)
  | .bool a, .bool b =>
    match decEq a b with
    | .isTrue h => .isTrue (by rw [h])
    | .isFalse h => .isFalse (fun hh => h (JValue.bool.inj hh))
  | .bool _, .num _ => .isFalse (fun h => nomatch h)
  | .bool _, .str _ => .isFalse (fun h => nomatch h)
  | .bool _, .arr _ => .isFalse (fun h => nomatch h)
  | .bool _, .obj _ => .isFalse (fun h => nomatch h)
  | .num _, .null => .isFalse (fun h => nomatch h)
  | .num _, .bool _ => .isFalse (fun h => nomatch h)
  | .num a, .num b =>
    match decEq a b with
    | .isTrue h => .isTrue (by rw [h])
    | .isFalse h => .isFalse (fun hh => h (JValue.num.inj hh))
  | .num _, .str _ => .isFalse (fun h => nomatch h)
  | .num _, .arr _ => .isFalse (fun h => nomatch h)
  | .num _, .obj _ => .isFalse (fun h => nomatch h)
  | .str _, .null => .isFalse (fun h => nomatch h)
  | .str _, .bool _ => .isFalse (fun h => nomatch h)
  | .str _, .num _ => .isFalse (fun h => nomatch h)
  | .str a, .str b =>
    match decEq a b with
    | .isTrue h => .isTrue (by rw [h])
    | .isFalse h => .isFalse (fun hh => h (JValue.str.inj hh))
  | .str _, .arr _ => .isFalse (fun h => nomatch h)
  | .str _, .obj _ => .isFalse (fun h => nomatch h)
  | .arr _, .null => .isFalse (fun h => nomatch h)
  | .arr _, .bool _ => .isFalse (fun h => nomatch h)
  | .arr _, .num _ => .isFalse (fun h => nomatch h)
  | .arr _, .str _ => .isFalse (fun h => nomatch h)
  | .arr a, .arr b =>
    match decEqJValueList a b with
    | .isTrue h => .isTrue (by rw [h])
    | .isFalse h => .isFalse (fun hh => h (JValue.arr.inj hh))
  | .arr _, .obj _ => .isFalse (fun h => nomatch h)
  | .obj _, .null => .isFalse (fun h => nomatch h)
  | .obj _, .bool _ => .isFalse (fun h => nomatch h)
  | .obj _, .num _ => .isFalse (fun h => nomatch h)
  | .obj _, .str _ => .isFalse (fun h => nomatch h)
  | .obj _, .arr _ => .isFalse (fun h => nomatch h)
  | .obj a, .obj b =>
    match decEqJValueFields a b with
    | .isTrue h => .isTrue (by rw [h])
    | .isFalse h => .isFalse (fun hh => h (JValue.obj.inj hh))

/-- Decidable equality on lists of `JValue`. -/
def decEqJValueList : (a b : List JValue) → Decidable (a = b)
  | [], [] => .isTrue rfl
  | [], _ :: _ => .isFalse (fun h => nomatch h)
  | _ :: _, [] => .isFalse (fun h => nomatch h)
  | x :: xs, y :: ys =>
    match decEqJValue x y with
    | .isFalse h => .isFalse (fun hh => h (List.cons.inj hh).1)
    | .isTrue h1 =>
      match decEqJValueList xs ys with
      | .isTrue h2 => .isTrue (by rw [h1, h2])
      | .isFalse h => .isFalse (fun hh => h (List.cons.inj hh).2)

/-- Decidable equality on field lists of `JValue` objects. -/
def decEqJValueFields : (a b : List (String × JValue)) → Decidable (a = b)
  | [], [] => .isTrue rfl
  | [], _ :: _ => .isFalse (fun h => nomatch h)
  | _ :: _, [] => .isFalse (fun h => nomatch h)
  | (k1, v1) :: xs, (k2, v2) :: ys =>
    match decEq k1 k2 with
    | .isFalse h => .isFalse (fun hh => h (Prod.mk.inj (List.cons.inj hh).1).1)
    | .isTrue hk =>
      match decEqJValue v1 v2 with
      | .isFalse h => .isFalse (fun hh => h (Prod.mk.inj (List.cons.inj hh).1).2)
      | .isTrue hv =>
        match decEqJValueFields xs ys with
        | .isTrue ht => .isTrue (by rw [hk, hv, ht])
        | .isFalse h => .isFalse (fun hh => h (List.cons.inj hh).2)

end

instance : DecidableEq JValue := decEqJValue

/-- Python `dict.get(key)` over an association list: first binding wins. -/
def jLookup (fields : List (String × JValue)) (key : String) : Option JValue :=
  match fields with
  | [] => none
  | (k, v) :: rest => if k = key then some v else jLookup rest key

/-- Python truthiness of a value (`if value:`). -/
def JValue.isTruthy : JValue → Bool
  | .null => false
  | .bool b => b
  | .num s => s.data.any (fun c => c.isDigit && c != '0')
  | .str s => !s.isEmpty
  | .arr xs => !xs.isEmpty
  | .obj fs => !fs.isEmpty

/-- Hexadecimal digit character used for JSON control-character escapes. -/
def hexDigitChar (n : Nat) : Char :=
  "0123456789abcdef".data.getD n '0'

/-- JSON escaping of one character as performed by `json.dumps` with
`ensure_ascii=False`: only the two metacharacters and control characters are
escaped, everything else (including CJK text) is emitted verbatim. -/
def jsonEscapeChar (c : Char) : String :=
  if c = '"' then "\\\""
  else if c = '\\' then "\\\\"
  else if c = '\n' then "\\n"
  else if c = '\t' then "\\t"
  else if c = '\r' then "\\r"
  else if c = Char.ofNat 8 then "\\b"
  else if c = Char.ofNat 12 then "\\f"
  else if c.toNat < 32 then
    "\\u00" ++ String.mk [hexDigitChar (c.toNat / 16), hexDigitChar (c.toNat % 16)]
  else String.singleton c

/-- JSON escaping of a whole string body. -/
def jsonEscape (s : String) : String :=
  String.join (s.data.map jsonEscapeChar)

mutual

/-- `json.dumps(value, ensure_ascii=False)` with the default separators
`", "` and `": "`, keys in insertion order. -/
def jsonDumps : JValue → String
  | .null => "null"
  | .bool b => if b then "true" else "false"
  | .num s => s
  | .str s => "\"" ++ jsonEscape s ++ "\""
  | .arr xs => "[" ++ jsonDumpsItems xs ++ "]"
  | .obj fs => "\x7b" ++ jsonDumpsFields fs ++ "\x7d"

/-- Array items of `jsonDumps`, comma-separated. -/
def jsonDumpsItems : List JValue → String
  | [] => ""
  | [x] => jsonDumps x
  | x :: y :: rest => jsonDumps x ++ ", " ++ jsonDumpsItems (y :: rest)

/-- Object fields of `jsonDumps`, comma-separated. -/
def jsonDumpsFields : List (String × JValue) → String
  | [] => ""
  | [(k, v)] => "\"" ++ jsonEscape k ++ "\": " ++ jsonDumps v
  | (k, v) :: f :: rest =>
    "\"" ++ jsonEscape k ++ "\": " ++ jsonDumps v ++ ", " ++ jsonDumpsFields (f :: rest)

end

/-- Insert one field into a key-sorted field list (string comparison is
code-point lexicographic, as in Python). -/
def insertByKey (p : String × JValue) : List (String × JValue) → List (String × JValue)
  | [] => [p]
  | q :: rest => if p.1 < q.1 then p :: q :: rest else q :: insertByKey p rest

/-- Sort an object's fields by key, as `json.dumps(..., sort_keys=True)` does. -/
def sortFieldsByKey (fs : List (String × JValue)) : List (String × JValue) :=
  fs.foldr insertByKey []

mutual

/-- Recursively sort every object's keys, modelling the recursive effect of
`sort_keys=True`. -/
def sortKeysRec : JValue → JValue
  | .null => .null
  | .bool b => .bool b
  | .num s => .num s
  | .str s => .str s
  | .arr xs => .arr (sortKeysRecList xs)
  | .obj fs => .obj (sortFieldsByKey (sortKeysRecFields fs))

/-- List part of `sortKeysRec`. -/
def sortKeysRecList : List JValue → List JValue
  | [] => []
  | x :: rest => sortKeysRec x :: sortKeysRecList rest

/-- Field part of `sortKeysRec`. -/
def sortKeysRecFields : List (String × JValue) → List (String × JValue)
  | [] => []
  | (k, v) :: rest => (k, sortKeysRec v) :: sortKeysRecFields rest

end

/-- `json.dumps(value, ensure_ascii=False, sort_keys=True)`. -/
def jsonDumpsSorted (v : JValue) : String :=
  jsonDumps (sortKeysRec v)

mutual

/-- Python `repr` of a value, used by `str` on containers.  Strings are
wrapped in single quotes (escaping subtleties of `repr` beyond the quote and
backslash do not arise in this code base). -/
def pyRepr : JValue → String
  | .null => "None"
  | .bool b => if b then "True" else "False"
  | .num s => s
  | .str s => String.singleton (Char.ofNat 39) ++ s ++ String.singleton (Char.ofNat 39)
  | .arr xs => "[" ++ pyReprItems xs ++ "]"
  | .obj fs => "\x7b" ++ pyReprFields fs ++ "\x7d"

/-- List items of `pyRepr`. -/
def pyReprItems : List JValue → String
  | [] => ""
  | [x] => pyRepr x
  | x :: y :: rest => pyRepr x ++ ", " ++ pyReprItems (y :: rest)

/-- Dict fields of `pyRepr`. -/
def pyReprFields : List (String × JValue) → String
  | [] => ""
  | [(k, v)] =>
    String.singleton (Char.ofNat 39) ++ k ++ String.singleton (Char.ofNat 39) ++ ": " ++ pyRepr v
  | (k, v) :: f :: rest =>
    String.singleton (Char.ofNat 39) ++ k ++ String.singleton (Char.ofNat 39) ++ ": " ++ pyRepr v
      ++ ", " ++ pyReprFields (f :: rest)

end

/-- Python `str(value)` as used by f-string interpolation. -/
def pyStr : JValue → String
  | .str s => s
  | v => pyRepr v

/-- ASCII whitespace as stripped by Python `str.strip()` (the only
whitespace occurring in this code base). -/
def isStripSpace (c : Char) : Bool :=
  c == ' ' || c == '\t' || c == '\n' || c == '\r' || c == Char.ofNat 11 || c == Char.ofNat 12

/-- Python `str.strip()`. -/
def pyStrip (s : String) : String :=
  String.mk (((s.data.dropWhile isStripSpace).reverse.dropWhile isStripSpace).reverse)

/-- Character-level scan behind `str.split(sub)`: non-overlapping matches,
left to right. -/
def splitOnAuxChars (sub : List Char) : Nat → List Char → List Char → List (List Char)
  | 0, _, acc => [acc.reverse]
  | fuel + 1, l, acc =>
    match l with
    | [] => [acc.reverse]
    | c :: rest =>
      if List.isPrefixOf sub l then
        acc.reverse :: splitOnAuxChars sub fuel (l.drop sub.length) []
      else
        splitOnAuxChars sub fuel rest (c :: acc)

/-- Python `str.split(sub)` for a non-empty separator. -/
def pySplitOn (s sub : String) : List String :=
  if sub.isEmpty then [s]
  else (splitOnAuxChars sub.data (s.data.length + 1) s.data []).map String.mk

/-! ## Data model (app/core/types.py) -/

/-- `MCPToolResult` from app/core/types.py: the uniform success/failure
envelope every tool handler returns. -/
structure MCPToolResult where
  success : Bool
  data : List (String × JValue) := []
  message : String := ""
deriving DecidableEq

/-- `MCPToolInputSchema` from app/core/types.py. -/
structure MCPToolInputSchema where
  type : String := "object"
  properties : List (String × JValue)
  required : List String := []
deriving DecidableEq

/-- `MCPToolDefinition` from app/core/types.py. -/
structure MCPToolDefinition where
  name : String
  description : String
  inputSchema : MCPToolInputSchema
deriving DecidableEq

/-- `MCPMemory` from app/core/types.py.  The `frequent_categories` entries are
kept as `JValue` because `_update_memory` appends `result.data["category"]`
verbatim, whatever value the handler put there. -/
structure MCPMemory where
  monthlyBudget : Option JValue := none
  frequentCategories : List JValue := []
  facts : List (String × JValue) := []
deriving DecidableEq

/-- `MCPUser` from app/core/types.py. -/
structure MCPUser where
  id : String
  locale : String := "zh-CN"
  timezone : String := "Asia/Singapore"
deriving DecidableEq

/-- `MCPConversation` from app/core/types.py. -/
structure MCPConversation where
  history : List (List (String × String)) := []
  currentIntent : String := "unknown"
deriving DecidableEq

/-- `MCPContext` from app/core/types.py (`now` abstracted to a counter; the
loop never inspects it, it is only serialized into the user prompt). -/
structure MCPContext where
  user : MCPUser
  conversation : MCPConversation := {}
  memory : MCPMemory := {}
  now : Nat := 0
deriving DecidableEq

/-- `AgentReply` from app/core/types.py. -/
structure AgentReply where
  text : String
  imagePaths : List String := []
deriving DecidableEq

/-- One entry of the planner's `tool_calls` list.  Every field is optional
because the loop reads them with `dict.get` and a default. -/
structure PlannedToolCall where
  id? : Option String := none
  name? : Option String := none
  arguments? : Option JValue := none
  rawArguments? : Option String := none
deriving DecidableEq

/-- The step dictionary returned by `LLMRouter.next_step`:
`{"content": ..., "tool_calls": [...]}`. -/
structure PlannerStep where
  content : Option String := none
  toolCalls : List PlannedToolCall := []
deriving DecidableEq

/-- One `tool_calls` entry of an assistant transcript message
(`{"id": ..., "type": "function", "function": {"name": ..., "arguments": raw}}`;
the constant `"type"` field is omitted). -/
structure AssistantCallEntry where
  id : String
  name : String
  arguments : String
deriving DecidableEq

/-- A transcript message (the dicts appended to `messages` in both loops). -/
inductive Message where
  | system : String → Message
  | user : String → Message
  | assistant : String → List AssistantCallEntry → Message
  | tool : String → String → Message
deriving DecidableEq

/-- The `content` entry of a transcript message (`msg.get("content", "")`). -/
def Message.content : Message → String
  | .system c => c
  | .user c => c
  | .assistant c _ => c
  | .tool _ c => c

/-- One row of `last_tool_results` (both loops append the same dict shape). -/
structure ToolRow where
  toolName : String
  success : Bool
  message : String
  data : List (String × JValue)
deriving DecidableEq

/-- Observable events of one loop run: planner invocations, registry
dispatches (with the returned result), suppressed repeated calls and memory
persistence, in program order. -/
inductive TraceEvent where
  | plannerCall : TraceEvent
  | dispatch : String → JValue → MCPToolResult → TraceEvent
  | suppress : String → JValue → TraceEvent
  | saveMemory : MCPMemory → TraceEvent
deriving DecidableEq

/-! ## Tool Registry (app/tools/registry.py) -/

/-- A tool handler: `Callable[[str, dict], Awaitable[MCPToolResult]]`,
embedded as a pure function of user id and arguments. -/
def ToolHandler : Type := String → JValue → MCPToolResult

/-- Generic association-list lookup, modelling Python `dict.get`. -/
def assocLookup {α : Type} (l : List (String × α)) (key : String) : Option α :=
  match l with
  | [] => none
  | (k, v) :: rest => if k = key then some v else assocLookup rest key

/-- `ToolRegistry` from app/tools/registry.py: declared definitions plus the
mutable name → handler mapping (most recent registration first, so that
`assocLookup` sees the overwriting entry). -/
structure ToolRegistry where
  definitions : List MCPToolDefinition
  handlers : List (String × ToolHandler) := []

/-- `ToolRegistry.register_handler`: raises (here: returns `.error`) when the
name is not among the declared definitions, otherwise stores the handler. -/
def ToolRegistry.registerHandler (reg : ToolRegistry) (toolName : String)
    (handler : ToolHandler) : Except String ToolRegistry :=
  if reg.definitions.all (fun d => d.name ≠ toolName) then
    .error ("Tool not found in definitions: " ++ toolName)
  else
    .ok { reg with handlers := (toolName, handler) :: reg.handlers }

/-- `ToolRegistry.list_tools`. -/
def ToolRegistry.listTools (reg : ToolRegistry) : List MCPToolDefinition :=
  reg.definitions

/-- `ToolRegistry.call`: a missing handler yields a `success=False` result
with a descriptive message instead of raising; a registered handler's result
is returned unchanged. -/
def ToolRegistry.call (reg : ToolRegistry) (toolName userId : String)
    (arguments : JValue) : MCPToolResult :=
  match assocLookup reg.handlers toolName with
  | none => { success := false, message := "Tool handler not registered: " ++ toolName }
  | some handler => handler userId arguments

/-! ## Planner Port (app/llm/router.py) -/

namespace LLMRouter

/-- Python `str.lower()` restricted to ASCII case mapping (the keyword tests
below mix ASCII and CJK text, and CJK characters are fixed by `lower`). -/
def toLowerStr (s : String) : String :=
  String.mk (s.data.map Char.toLower)

/-- Python substring test `needle in haystack` on the character level. -/
def containsSubAux (needle : List Char) : List Char → Bool
  | [] => needle.isEmpty
  | c :: rest => List.isPrefixOf needle (c :: rest) || containsSubAux needle rest

/-- Python `needle in haystack` for strings. -/
def containsSub (haystack needle : String) : Bool :=
  containsSubAux needle.data haystack.data

/-- `any(word in lowered for word in words)`. -/
def anyKeyword (lowered : String) (words : List String) : Bool :=
  words.any (fun w => containsSub lowered w)

/-- Python `str.replace(sub, repl)` (all non-overlapping occurrences, left to
right). -/
def strReplace (s sub repl : String) : String :=
  String.intercalate repl (pySplitOn s sub)

/-- The character class `\s` of Python's `re` module. -/
def isPySpace (c : Char) : Bool :=
  c == ' ' || c == '\t' || c == '\n' || c == '\r' || c == Char.ofNat 11 || c == Char.ofNat 12

/-- One match of the amount pattern `(\d+(?:\.\d+)?)\s*(?:元|块)?`:
the numeral captured by group 1 plus the span of the whole match. -/
structure NumMatch where
  numeral : String
  startIdx : Nat
  endIdx : Nat
deriving DecidableEq

/-- `re.finditer` for the amount pattern: left-to-right, non-overlapping,
maximal munch; the whole-match end includes the trailing whitespace and the
optional unit character. -/
def scanAmountsAux : Nat → List Char → Nat → List NumMatch
  | 0, _, _ => []
  | _, [], _ => []
  | fuel + 1, c :: cs, i =>
    if c.isDigit then
      let ds := List.takeWhile (fun ch => ch.isDigit) (c :: cs)
      let afterDigits := List.drop ds.length (c :: cs)
      let numAndRest : List Char × List Char :=
        match afterDigits with
        | '.' :: cs2 =>
          let fs := List.takeWhile (fun ch => ch.isDigit) cs2
          if fs.isEmpty then (ds, afterDigits)
          else (ds ++ '.' :: fs, List.drop fs.length cs2)
        | _ => (ds, afterDigits)
      let ws := List.takeWhile isPySpace numAndRest.2
      let afterWs := List.drop ws.length numAndRest.2
      let unitAndRest : Nat × List Char :=
        match afterWs with
        | u :: cs3 => if u = '元' ∨ u = '块' then (1, cs3) else (0, afterWs)
        | [] => (0, [])
      let fullLen := numAndRest.1.length + ws.length + unitAndRest.1
      ⟨String.mk numAndRest.1, i, i + fullLen⟩ :: scanAmountsAux fuel unitAndRest.2 (i + fullLen)
    else
      scanAmountsAux fuel cs (i + 1)

/-- All amount matches of a message. -/
def scanAmounts (s : String) : List NumMatch :=
  scanAmountsAux (s.data.length + 1) s.data 0

/-- Drop leading zeros of an integer part, as `float` printing does. -/
def stripIntZeros (s : String) : String :=
  let t := s.data.dropWhile (fun c => c == '0')
  if t.isEmpty then "0" else String.mk t

/-- Drop trailing zeros of a fractional part. -/
def dropTrailingZeros (l : List Char) : List Char :=
  (l.reverse.dropWhile (fun c => c == '0')).reverse

/-- Decimal display of `float(numeral)` for the plain numerals matched by the
amount pattern (CPython: trailing fractional zeros dropped, integral values
shown with `.0`, leading integer zeros dropped). -/
def pyFloatRepr (numeral : String) : String :=
  match pySplitOn numeral "." with
  | [intPart] => stripIntZeros intPart ++ ".0"
  | [intPart, fracPart] =>
    let frac := String.mk (dropTrailingZeros fracPart.data)
    if frac = "" then stripIntZeros intPart ++ ".0"
    else stripIntZeros intPart ++ "." ++ frac
  | _ => numeral

/-- Positivity test `float(numeral) > 0` for a matched numeral. -/
def numeralPos (s : String) : Bool :=
  s.data.any (fun c => c.isDigit && c != '0')

/-- Try the pattern `scheme` followed by `\S+` at the head of the text. -/
def urlAt (l : List Char) (scheme : String) : Option String :=
  if List.isPrefixOf scheme.data l then
    let ns := List.takeWhile (fun ch => !isPySpace ch) (List.drop scheme.data.length l)
    if ns.isEmpty then none else some (scheme ++ String.mk ns)
  else none

/-- Scan for the leftmost match of `https?://\S+`. -/
def findUrlAux : Nat → List Char → Option String
  | 0, _ => none
  | _, [] => none
  | fuel + 1, c :: rest =>
    match urlAt (c :: rest) "https://" with
    | some u => some u
    | none =>
      match urlAt (c :: rest) "http://" with
      | some u => some u
      | none => findUrlAux fuel rest

/-- `re.search(r"https?://\S+", message)` (case-sensitive, leftmost). -/
def findUrl (s : String) : Option String :=
  findUrlAux (s.data.length + 1) s.data

/-- The `enumerate(amount_matches)` loop of the heuristic batch branch: one
expense item per matched amount, described by the text between the previous
match's end and this match's start. -/
def batchItemsAux (chars : List Char) : List NumMatch → Nat → Nat → List JValue
  | [], _, _ => []
  | m :: rest, idx, prevEnd =>
    let start := if idx = 0 then 0 else prevEnd
    let stripped := pyStrip (String.mk ((chars.drop start).take (m.startIdx - start)))
    let desc := if stripped = "" then "消费" ++ toString (idx + 1) else stripped
    JValue.obj
      [("amount", .num (pyFloatRepr m.numeral)),
       ("category", .str "其他"),
       ("description", .str desc)]
      :: batchItemsAux chars rest (idx + 1) m.endIdx

/-- Tail of `LLMRouter._heuristic_step` from the multi-amount branch on
(reached when every earlier branch fell through). -/
def heuristicStepTail (message lowered : String) : PlannerStep :=
  let amountMatches := scanAmounts message
  if amountMatches.length ≥ 2 then
    let args : JValue := .obj [("items", .arr (batchItemsAux message.data amountMatches 0 0))]
    { content := some "",
      toolCalls := [{ id? := some "heuristic-batch", name? := some "record_expenses_batch",
                      arguments? := some args, rawArguments? := some (jsonDumps args) }] }
  else if anyKeyword lowered ["天气", "weather"] then
    let city0 := pyStrip (strReplace (strReplace message "天气" "") "weather" "")
    let city := if city0 = "" then "Singapore" else city0
    let args : JValue := .obj [("city", .str city)]
    { content := some "",
      toolCalls := [{ id? := some "heuristic-weather", name? := some "get_weather",
                      arguments? := some args, rawArguments? := some (jsonDumps args) }] }
  else
    match (scanAmounts message).head? with
    | some m =>
      if numeralPos m.numeral then
        let args : JValue := .obj
          [("amount", .num (pyFloatRepr m.numeral)), ("category", .str "其他"),
           ("description", .str message)]
        { content := some "",
          toolCalls := [{ id? := some "heuristic-expense", name? := some "record_expense",
                          arguments? := some args, rawArguments? := some (jsonDumps args) }] }
      else { content := some "我在的，你可以告诉我需要记录什么开销。", toolCalls := [] }
    | none => { content := some "我在的，你可以告诉我需要记录什么开销。", toolCalls := [] }

/-- `LLMRouter._heuristic_step`: the deterministic rule-based step used when
no provider is configured or the provider call failed. -/
def heuristicStep (text : String) : PlannerStep :=
  let message := pyStrip text
  let lowered := toLowerStr message
  if anyKeyword lowered ["你好", "hello", "hi"] then
    { content := some "你好，我可以帮你记账、查天气和管理任务。", toolCalls := [] }
  else if anyKeyword lowered ["可视化", "图表", "趋势图", "柱状图", "饼图", "分析图"] then
    let args : JValue := .obj [("days", .num "30"), ("chart_types", .arr [.str "all"])]
    { content := some "",
      toolCalls := [{ id? := some "heuristic-viz", name? := some "visualize_expenses",
                      arguments? := some args, rawArguments? := some (jsonDumps args) }] }
  else if anyKeyword lowered ["分析", "消费分析", "开销分析", "统计"] then
    let args : JValue := .obj [("days", .num "30"), ("limit", .num "200")]
    { content := some "",
      toolCalls := [{ id? := some "heuristic-analyze", name? := some "analyze_expenses",
                      arguments? := some args, rawArguments? := some (jsonDumps args) }] }
  else if (containsSub lowered "配置" || containsSub lowered "设置")
      && anyKeyword lowered ["查看", "列出", "list"] then
    { content := some "",
      toolCalls := [{ id? := some "heuristic-list-config", name? := some "list_user_configs",
                      arguments? := some (.obj []), rawArguments? := some "\x7b\x7d" }] }
  else if containsSub lowered "http" && (containsSub lowered "图片" || containsSub lowered "图像") then
    match findUrl message with
    | some url =>
      let args : JValue := .obj [("image_url", .str url)]
      { content := some "",
        toolCalls := [{ id? := some "heuristic-image-url", name? := some "analyze_image",
                        arguments? := some args, rawArguments? := some (jsonDumps args) }] }
    | none => heuristicStepTail message lowered
  else heuristicStepTail message lowered

end LLMRouter

namespace LLMRouter

/-- Skip JSON whitespace. -/
def skipJsonWs : List Char → List Char
  | [] => []
  | c :: rest => if c = ' ' ∨ c = '\t' ∨ c = '\n' ∨ c = '\r' then skipJsonWs rest else c :: rest

/-- Value of one hexadecimal digit. -/
def hexVal (c : Char) : Option Nat :=
  if c.isDigit then some (c.toNat - 48)
  else if 'a' ≤ c ∧ c ≤ 'f' then some (c.toNat - 87)
  else if 'A' ≤ c ∧ c ≤ 'F' then some (c.toNat - 55)
  else none

/-- Parse a JSON string body after the opening quote. -/
def parseJsonStringAux : Nat → List Char → List Char → Option (String × List Char)
  | 0, _, _ => none
  | _, [], _ => none
  | fuel + 1, c :: rest, acc =>
    if c = '"' then some (String.mk acc.reverse, rest)
    else if c = '\\' then
      match rest with
      | [] => none
      | e :: rest2 =>
        if e = '"' then parseJsonStringAux fuel rest2 ('"' :: acc)
        else if e = '\\' then parseJsonStringAux fuel rest2 ('\\' :: acc)
        else if e = '/' then parseJsonStringAux fuel rest2 ('/' :: acc)
        else if e = 'n' then parseJsonStringAux fuel rest2 ('\n' :: acc)
        else if e = 't' then parseJsonStringAux fuel rest2 ('\t' :: acc)
        else if e = 'r' then parseJsonStringAux fuel rest2 ('\r' :: acc)
        else if e = 'b' then parseJsonStringAux fuel rest2 (Char.ofNat 8 :: acc)
        else if e = 'f' then parseJsonStringAux fuel rest2 (Char.ofNat 12 :: acc)
        else if e = 'u' then
          match rest2 with
          | h1 :: h2 :: h3 :: h4 :: rest3 =>
            match hexVal h1, hexVal h2, hexVal h3, hexVal h4 with
            | some a, some b, some c3, some d =>
              parseJsonStringAux fuel rest3 (Char.ofNat (((a * 16 + b) * 16 + c3) * 16 + d) :: acc)
            | _, _, _, _ => none
          | _ => none
        else none
    else parseJsonStringAux fuel rest (c :: acc)

/-- Parse a JSON number, keeping its source text as the display string. -/
def parseJsonNumber (l : List Char) : Option (String × List Char) :=
  let negAndRest : List Char × List Char :=
    match l with
    | '-' :: rest => (['-'], rest)
    | _ => ([], l)
  let ds := negAndRest.2.takeWhile (fun c => c.isDigit)
  if ds.isEmpty then none
  else
    let l2 := negAndRest.2.drop ds.length
    let fracAndRest : List Char × List Char :=
      match l2 with
      | '.' :: r =>
        let fs := r.takeWhile (fun c => c.isDigit)
        if fs.isEmpty then ([], l2) else ('.' :: fs, r.drop fs.length)
      | _ => ([], l2)
    let expAndRest : List Char × List Char :=
      match fracAndRest.2 with
      | e :: r =>
        if e = 'e' ∨ e = 'E' then
          let sgnAndRest : List Char × List Char :=
            match r with
            | s :: r3 => if s = '+' ∨ s = '-' then ([s], r3) else ([], r)
            | [] => ([], r)
          let es := sgnAndRest.2.takeWhile (fun c => c.isDigit)
          if es.isEmpty then ([], fracAndRest.2)
          else (e :: (sgnAndRest.1 ++ es), sgnAndRest.2.drop es.length)
        else ([], fracAndRest.2)
      | [] => ([], fracAndRest.2)
    some (String.mk (negAndRest.1 ++ ds ++ fracAndRest.1 ++ expAndRest.1), expAndRest.2)

mutual

/-- Recursive-descent JSON value parser.  The fuel only bounds recursion
depth; callers supply more than any input could consume. -/
def parseJsonValue : Nat → List Char → Option (JValue × List Char)
  | 0, _ => none
  | fuel + 1, l =>
    match skipJsonWs l with
    | [] => none
    | c :: rest =>
      if c = '"' then
        match parseJsonStringAux (rest.length + 1) rest [] with
        | some (s, r) => some (.str s, r)
        | none => none
      else if c = '[' then
        match skipJsonWs rest with
        | ']' :: r => some (.arr [], r)
        | _ =>
          match parseJsonItems fuel rest with
          | some (xs, r) => some (.arr xs, r)
          | none => none
      else if c = Char.ofNat 123 then
        match skipJsonWs rest with
        | c2 :: r2 =>
          if c2 = Char.ofNat 125 then some (.obj [], r2)
          else
            match parseJsonFields fuel rest with
            | some (fs, r) => some (.obj fs, r)
            | none => none
        | [] => none
      else if c = 't' then
        if List.isPrefixOf "rue".data rest then some (.bool true, rest.drop 3) else none
      else if c = 'f' then
        if List.isPrefixOf "alse".data rest then some (.bool false, rest.drop 4) else none
      else if c = 'n' then
        if List.isPrefixOf "ull".data rest then some (.null, rest.drop 3) else none
      else
        match parseJsonNumber (c :: rest) with
        | some (s, r) => some (.num s, r)
        | none => none

/-- Comma-separated array items after `[`. -/
def parseJsonItems : Nat → List Char → Option (List JValue × List Char)
  | 0, _ => none
  | fuel + 1, l =>
    match parseJsonValue fuel l with
    | none => none
    | some (v, r) =>
      match skipJsonWs r with
      | ',' :: r2 =>
        match parseJsonItems fuel r2 with
        | some (vs, r3) => some (v :: vs, r3)
        | none => none
      | ']' :: r2 => some ([v], r2)
      | _ => none

/-- Comma-separated object fields after the opening brace. -/
def parseJsonFields : Nat → List Char → Option (List (String × JValue) × List Char)
  | 0, _ => none
  | fuel + 1, l =>
    match skipJsonWs l with
    | c :: rest =>
      if c = '"' then
        match parseJsonStringAux (rest.length + 1) rest [] with
        | some (k, r) =>
          match skipJsonWs r with
          | ':' :: r2 =>
            match parseJsonValue fuel r2 with
            | none => none
            | some (v, r3) =>
              match skipJsonWs r3 with
              | ',' :: r4 =>
                match parseJsonFields fuel r4 with
                | some (fs, r5) => some ((k, v) :: fs, r5)
                | none => none
              | c5 :: r5 => if c5 = Char.ofNat 125 then some ([(k, v)], r5) else none
              | [] => none
          | _ => none
        | none => none
      else none
    | [] => none

end

/-- `json.loads`, returning `none` where Python raises. -/
def jsonLoads (s : String) : Option JValue :=
  match parseJsonValue (4 * s.data.length + 8) s.data with
  | some (v, rest) => if (skipJsonWs rest).isEmpty then some v else none
  | none => none

/-- An `APIError` raised by the OpenAI client. -/
structure APIErrorModel where
  message : String
deriving DecidableEq

/-- `call.function` data of a provider tool call (`arguments` optional
because `next_step` defends against `None` with `or "{}"`). -/
structure ProviderToolCall where
  id : String
  functionName : String
  functionArguments : Option String := none
deriving DecidableEq

/-- `response.choices[i].message`. -/
structure ProviderMessage where
  content : Option String := none
  toolCalls : Option (List ProviderToolCall) := none
deriving DecidableEq

/-- `response.choices[i]`. -/
structure ProviderChoice where
  message : Option ProviderMessage := none
deriving DecidableEq

/-- A chat-completions response. -/
structure ProviderResponse where
  choices : List ProviderChoice := []
deriving DecidableEq

/-- The provider call `client.chat.completions.create(...)`, abstracted to a
function of the transcript and the serialized tool payload; `.error` stands
for a raised `APIError`. -/
def LLMProvider : Type :=
  List Message → List JValue → Except APIErrorModel ProviderResponse

/-- `MCPToolInputSchema.model_dump()`. -/
def schemaDump (s : MCPToolInputSchema) : JValue :=
  .obj [("type", .str s.type), ("properties", .obj s.properties),
        ("required", .arr (s.required.map JValue.str))]

/-- `LLMRouter._to_openai_tools`. -/
def toOpenaiTools (tools : List MCPToolDefinition) : List JValue :=
  tools.map (fun tool => .obj
    [("type", .str "function"),
     ("function", .obj
       [("name", .str tool.name), ("description", .str tool.description),
        ("parameters", schemaDump tool.inputSchema)])])

/-- Tool-call parsing inside `next_step`'s success path. -/
def parseProviderToolCall (call : ProviderToolCall) : PlannedToolCall :=
  let raw :=
    match call.functionArguments with
    | none => "\x7b\x7d"
    | some s => if s = "" then "\x7b\x7d" else s
  { id? := some call.id, name? := some call.functionName,
    arguments? := some ((jsonLoads raw).getD (.obj [])), rawArguments? := some raw }

/-- The success path of `next_step`: unpack the first choice's message. -/
def parseProviderResponse (response : ProviderResponse) : PlannerStep :=
  match response.choices with
  | [] => { content := some "", toolCalls := [] }
  | choice :: _ =>
    match choice.message with
    | none => { content := some "", toolCalls := [] }
    | some msg =>
      { content := some (pyStrip (msg.content.getD "")),
        toolCalls := (msg.toolCalls.getD []).map parseProviderToolCall }

/-- `LLMRouter.next_step`.  `client = none` models a router constructed
without an API client.  The result is `none` exactly where the Python method
would raise (the `IndexError` from `messages[-1]` on an empty transcript); a
raised `APIError` from the provider is caught and degrades to the
deterministic heuristic step on the last message's content. -/
def nextStep (client : Option LLMProvider) (messages : List Message)
    (tools : List MCPToolDefinition) : Option PlannerStep :=
  match client with
  | none => (messages.getLast?).map (fun m => heuristicStep m.content)
  | some provider =>
    match provider messages (toOpenaiTools tools) with
    | .ok response => some (parseProviderResponse response)
    | .error _ => (messages.getLast?).map (fun m => heuristicStep m.content)

end LLMRouter

/-! ## Shared pieces of the two loop implementations -/

/-- `data.get(key, default)` followed by f-string interpolation (`str`). -/
def fmtField (data : List (String × JValue)) (key : String) (dflt : JValue) : String :=
  pyStr ((jLookup data key).getD dflt)

/-- `data.get(key, [])` in the places where the code then iterates the value
or takes its length (only list values occur there). -/
def jGetList (data : List (String × JValue)) (key : String) : List JValue :=
  match jLookup data key with
  | some (.arr xs) => xs
  | _ => []

/-- `item.get(key, '')` on a list element that is a dict. -/
def itemField (item : JValue) (key : String) : String :=
  match item with
  | .obj fs => pyStr ((jLookup fs key).getD (.str ""))
  | _ => pyStr (.str "")

/-- The `record_expenses_batch` template of the fallback summary. -/
def batchSummaryText (data : List (String × JValue)) : String :=
  "✅ 批量记账成功\n• 笔数：" ++ fmtField data "count" (.num "0")
    ++ "\n• 合计：" ++ fmtField data "total" (.num "0") ++ " 元"

/-- The `record_expense` template of the fallback summary. -/
def singleSummaryText (data : List (String × JValue)) : String :=
  "✅ 记账成功\n• 金额：" ++ fmtField data "amount" .null
    ++ " 元\n• 分类：" ++ fmtField data "category" .null

/-- The `visualize_expenses` template of the fallback summary. -/
def vizSummaryText (data : List (String × JValue)) : String :=
  "📈 可视化已生成\n• 图表数量：" ++ toString (jGetList data "charts").length
    ++ "\n• 目录：" ++ fmtField data "output_dir" (.str "")

/-- The `analyze_expenses` template of the fallback summary. -/
def analyzeSummaryText (data : List (String × JValue)) : String :=
  "📊 消费分析完成\n• 笔数：" ++ fmtField data "count" (.num "0")
    ++ "\n• 合计：" ++ fmtField data "total" (.num "0") ++ " 元"

/-- The `deep_web_search` template of the fallback summary (present only in
`AgentLoopEngine`). -/
def deepSearchSummaryText (data : List (String × JValue)) : String :=
  let sources := jGetList data "sources"
  String.intercalate "\n"
    (("🧠 深度搜索完成（来源 " ++ toString sources.length ++ " 条）")
      :: (List.enumFrom 1 (sources.take 5)).map
        (fun p => toString p.1 ++ ". " ++ itemField p.2 "title" ++ "\n" ++ itemField p.2 "url"))

/-- The `google_search` template of the fallback summary. -/
def googleSummaryText (data : List (String × JValue)) : String :=
  let items := jGetList data "items"
  if items.isEmpty then "🔎 未找到结果：" ++ fmtField data "query" (.str "")
  else
    String.intercalate "\n"
      (("🔎 Google 搜索结果（" ++ toString items.length ++ " 条）")
        :: (List.enumFrom 1 (items.take 5)).map
          (fun p => toString p.1 ++ ". " ++ itemField p.2 "title" ++ "\n" ++ itemField p.2 "url"))

/-- The `capture_website_screenshot` template of the fallback summary. -/
def screenshotSummaryText (data : List (String × JValue)) : String :=
  String.intercalate "\n"
    (["📸 网页截图完成",
      "• 标题：" ++ fmtField data "title" (.str ""),
      "• 地址：" ++ fmtField data "url" (.str ""),
      "• 存储：" ++ fmtField data "storage_mode" (.str "none")]
      ++ (match jLookup data "screenshot_id" with
          | some v => if v.isTruthy then ["• 数据库ID：" ++ pyStr v] else []
          | none => []))

/-- The planner-port dependency of both loops: `next_step`,
`summarize_after_tools` and the two prompt builders of `LLMRouter`,
abstracted as total functions of their inputs. -/
structure RouterModel where
  nextStep : List Message → List MCPToolDefinition → PlannerStep
  summarizeAfterTools : List Message → String
  buildSystemPrompt : String
  buildUserPrompt : String → MCPContext → String

/-- The one settings field the loops read:
`getattr(self.settings, "agent_max_steps", 6)`. -/
structure Settings where
  agentMaxSteps : Nat := 6
deriving DecidableEq

/-! ## Agent Loop Engine (app/agent/loop.py) -/

namespace AgentLoopEngine

/-- `AgentLoopEngine._build_call_signature`.  The `except` fallback to
`str(tool_args)` is unreachable because every `JValue` serializes. -/
def buildCallSignature (toolName : String) (toolArgs : JValue) : String :=
  toolName ++ ":" ++ jsonDumpsSorted toolArgs

/-- The synthetic result recorded for a suppressed repeated failing call. -/
def suppressedResult : MCPToolResult :=
  { success := false, message := "检测到重复失败调用，已停止重复重试。", data := [] }

/-- `AgentLoopEngine._update_memory` without the store side effect: the new
memory value handed to `save_memory`. -/
def updateMemory (memory : MCPMemory) (result : MCPToolResult) : MCPMemory :=
  match jLookup result.data "category" with
  | some category =>
    if result.success && category.isTruthy then
      if category ∈ memory.frequentCategories then memory
      else { memory with frequentCategories := memory.frequentCategories ++ [category] }
    else memory
  | none => memory

/-- `chart.get("path")` under `if path:` — only truthy string paths are
collected (a non-string value would fail `AgentReply` validation upstream). -/
def chartPath (chart : JValue) : Option String :=
  match chart with
  | .obj fs =>
    match jLookup fs "path" with
    | some (.str p) => if p.isEmpty then none else some p
    | _ => none
  | _ => none

/-- The paths harvested from one result row by `_collect_image_paths`. -/
def rowPaths (row : ToolRow) : List String :=
  (if row.toolName = "visualize_expenses" then
    (jGetList row.data "charts").filterMap chartPath
   else []) ++
  (if row.toolName = "capture_website_screenshot" then
    match jLookup row.data "path" with
    | some (.str p) => if p.isEmpty then [] else [p]
    | _ => []
   else [])

/-- The first phase of `_collect_image_paths`: harvest every row's paths in
order. -/
def harvestPaths : List ToolRow → List String
  | [] => []
  | row :: rest => rowPaths row ++ harvestPaths rest

/-- The second phase of `_collect_image_paths`: the `seen`/`unique` loop. -/
def dedupLoopAux (seen acc : List String) : List String → List String
  | [] => acc
  | p :: rest =>
    if p ∈ seen then dedupLoopAux seen acc rest
    else dedupLoopAux (p :: seen) (acc ++ [p]) rest

/-- `AgentLoopEngine._collect_image_paths`. -/
def collectImagePaths (toolResults : List ToolRow) : List String :=
  dedupLoopAux [] [] (harvestPaths toolResults)

/-- `AgentLoopEngine._fallback_tool_summary`. -/
def fallbackToolSummary (toolResults : List ToolRow) : String :=
  if toolResults.isEmpty then "✅ 已完成处理。"
  else
    let successResults := toolResults.filter (fun row => row.success)
    if successResults.isEmpty then "❌ 工具执行失败，请稍后重试。"
    else
      match (successResults.filter (fun row => row.toolName == "record_expenses_batch")).getLast? with
      | some lastBatch => batchSummaryText lastBatch.data
      | none =>
      match (successResults.filter (fun row => row.toolName == "record_expense")).getLast? with
      | some lastSingle => singleSummaryText lastSingle.data
      | none =>
      match (successResults.filter (fun row => row.toolName == "visualize_expenses")).getLast? with
      | some lastViz => vizSummaryText lastViz.data
      | none =>
      match (successResults.filter (fun row => row.toolName == "analyze_expenses")).getLast? with
      | some lastAnalyze => analyzeSummaryText lastAnalyze.data
      | none =>
      match (successResults.filter (fun row => row.toolName == "deep_web_search")).getLast? with
      | some lastDeep => deepSearchSummaryText lastDeep.data
      | none =>
      match (successResults.filter (fun row => row.toolName == "google_search")).getLast? with
      | some lastSearch => googleSummaryText lastSearch.data
      | none =>
      match (successResults.filter (fun row => row.toolName == "capture_website_screenshot")).getLast? with
      | some lastShot => screenshotSummaryText lastShot.data
      | none => "✅ 处理完成。"

/-- The run-local mutable state of `AgentLoopEngine.run`. -/
structure LoopState where
  messages : List Message
  rows : List ToolRow
  failedSignatures : List String
  memory : MCPMemory

/-- The per-call dispatch loop of one step (the second `for tool_call in
tool_calls` loop of `run`): suppression check, dispatch, failed-signature
bookkeeping, memory persistence, transcript append.  Returns the updated
state and this step's events in program order. -/
def processToolCalls (registry : ToolRegistry) (userId : String) :
    List PlannedToolCall → LoopState → LoopState × List TraceEvent
  | [], st => (st, [])
  | c :: rest, st =>
    let toolName := c.name?.getD ""
    let toolArgs := c.arguments?.getD (.obj [])
    let toolId := c.id?.getD ("tool-" ++ toolName)
    let callSignature := buildCallSignature toolName toolArgs
    let dispatched : MCPToolResult × List TraceEvent × List String :=
      if callSignature ∈ st.failedSignatures then
        (suppressedResult, [.suppress toolName toolArgs], st.failedSignatures)
      else
        let result := registry.call toolName userId toolArgs
        (result, [.dispatch toolName toolArgs result],
          if result.success then st.failedSignatures
          else st.failedSignatures ++ [callSignature])
    let result := dispatched.1
    let memory := updateMemory st.memory result
    let toolMessage := Message.tool toolId (jsonDumps (.obj
      [("success", .bool result.success), ("message", .str result.message),
       ("data", .obj result.data)]))
    let st1 : LoopState :=
      { messages := st.messages ++ [toolMessage],
        rows := st.rows ++ [⟨toolName, result.success, result.message, result.data⟩],
        failedSignatures := dispatched.2.2, memory := memory }
    let next := processToolCalls registry userId rest st1
    (next.1, dispatched.2.1 ++ [.saveMemory memory] ++ next.2)

/-- The bounded `for _ in range(max_steps)` loop of `AgentLoopEngine.run`,
with the remaining step budget as fuel. -/
def runLoop (router : RouterModel) (registry : ToolRegistry) (userId : String)
    (tools : List MCPToolDefinition) :
    Nat → Bool → LoopState → AgentReply × List TraceEvent
  | 0, _, st =>
    if st.rows.isEmpty then ({ text := "处理步骤过多，请简化描述后重试。" }, [])
    else
      ({ text := fallbackToolSummary st.rows, imagePaths := collectImagePaths st.rows }, [])
  | fuel + 1, usedTools, st =>
    let step := router.nextStep st.messages tools
    let content := pyStrip (step.content.getD "")
    if step.toolCalls.isEmpty then
      if usedTools then
        let summary := router.summarizeAfterTools st.messages
        if summary ≠ "" then
          ({ text := summary, imagePaths := collectImagePaths st.rows }, [.plannerCall])
        else
          ({ text := fallbackToolSummary st.rows, imagePaths := collectImagePaths st.rows },
            [.plannerCall])
      else
        ({ text := if content = "" then "我在的，你可以告诉我想记录什么开销，或问我天气。" else content },
          [.plannerCall])
    else
      let assistantCalls := step.toolCalls.map (fun c =>
        let toolName := c.name?.getD ""
        ({ id := c.id?.getD ("tool-" ++ toolName), name := toolName,
           arguments := c.rawArguments?.getD (jsonDumps (c.arguments?.getD (.obj []))) } :
          AssistantCallEntry))
      let st1 : LoopState :=
        { st with messages := st.messages ++ [Message.assistant content assistantCalls] }
      let stepOut := processToolCalls registry userId step.toolCalls st1
      let restOut := runLoop router registry userId tools fuel true stepOut.1
      (restOut.1, TraceEvent.plannerCall :: stepOut.2 ++ restOut.2)

/-- `AgentLoopEngine.run`: seed the transcript with the system and user
prompts, then iterate up to `agent_max_steps` times. -/
def run (router : RouterModel) (registry : ToolRegistry) (settings : Settings)
    (userId text : String) (context : MCPContext) : AgentReply × List TraceEvent :=
  runLoop router registry userId registry.listTools settings.agentMaxSteps false
    { messages := [Message.system router.buildSystemPrompt,
                   Message.user (router.buildUserPrompt text context)],
      rows := [], failedSignatures := [], memory := context.memory }

end AgentLoopEngine

/-! ## Agent Runtime loop (app/core/runtime.py) — the implementation wired by
app/bootstrap.py.  It differs from `AgentLoopEngine` in two ways: its
dispatch loop keeps no failed-signature set (every requested call is
dispatched), and its fallback summary has no `deep_web_search` branch. -/

namespace AgentRuntime

/-- `AgentRuntime._update_memory` without the store side effect (same code as
the engine's). -/
def updateMemory (memory : MCPMemory) (result : MCPToolResult) : MCPMemory :=
  match jLookup result.data "category" with
  | some category =>
    if result.success && category.isTruthy then
      if category ∈ memory.frequentCategories then memory
      else { memory with frequentCategories := memory.frequentCategories ++ [category] }
    else memory
  | none => memory

/-- `chart.get("path")` under `if path:` (same code as the engine's). -/
def chartPath (chart : JValue) : Option String :=
  match chart with
  | .obj fs =>
    match jLookup fs "path" with
    | some (.str p) => if p.isEmpty then none else some p
    | _ => none
  | _ => none

/-- The paths harvested from one result row by `_collect_image_paths`. -/
def rowPaths (row : ToolRow) : List String :=
  (if row.toolName = "visualize_expenses" then
    (jGetList row.data "charts").filterMap chartPath
   else []) ++
  (if row.toolName = "capture_website_screenshot" then
    match jLookup row.data "path" with
    | some (.str p) => if p.isEmpty then [] else [p]
    | _ => []
   else [])

/-- The first phase of `AgentRuntime._collect_image_paths`. -/
def harvestPaths : List ToolRow → List String
  | [] => []
  | row :: rest => rowPaths row ++ harvestPaths rest

/-- The second phase of `AgentRuntime._collect_image_paths`: the
`seen`/`unique` loop. -/
def dedupLoopAux (seen acc : List String) : List String → List String
  | [] => acc
  | p :: rest =>
    if p ∈ seen then dedupLoopAux seen acc rest
    else dedupLoopAux (p :: seen) (acc ++ [p]) rest

/-- `AgentRuntime._collect_image_paths`. -/
def collectImagePaths (toolResults : List ToolRow) : List String :=
  dedupLoopAux [] [] (harvestPaths toolResults)

/-- `AgentRuntime._fallback_tool_summary` (note: no `deep_web_search`
branch, unlike the engine's copy). -/
def fallbackToolSummary (toolResults : List ToolRow) : String :=
  if toolResults.isEmpty then "✅ 已完成处理。"
  else
    let successResults := toolResults.filter (fun row => row.success)
    if successResults.isEmpty then "❌ 工具执行失败，请稍后重试。"
    else
      match (successResults.filter (fun row => row.toolName == "record_expenses_batch")).getLast? with
      | some lastBatch => batchSummaryText lastBatch.data
      | none =>
      match (successResults.filter (fun row => row.toolName == "record_expense")).getLast? with
      | some lastSingle => singleSummaryText lastSingle.data
      | none =>
      match (successResults.filter (fun row => row.toolName == "visualize_expenses")).getLast? with
      | some lastViz => vizSummaryText lastViz.data
      | none =>
      match (successResults.filter (fun row => row.toolName == "analyze_expenses")).getLast? with
      | some lastAnalyze => analyzeSummaryText lastAnalyze.data
      | none =>
      match (successResults.filter (fun row => row.toolName == "google_search")).getLast? with
      | some lastSearch => googleSummaryText lastSearch.data
      | none =>
      match (successResults.filter (fun row => row.toolName == "capture_website_screenshot")).getLast? with
      | some lastShot => screenshotSummaryText lastShot.data
      | none => "✅ 处理完成。"

/-- The run-local state of `AgentRuntime._run_agent_loop` (no
failed-signature set exists here). -/
structure LoopState where
  messages : List Message
  rows : List ToolRow
  memory : MCPMemory

/-- The per-call dispatch loop of one step of `_run_agent_loop`: every
requested call is dispatched, the memory persisted, the transcript extended.
Returns the updated state and this step's events in program order. -/
def processToolCalls (registry : ToolRegistry) (userId : String) :
    List PlannedToolCall → LoopState → LoopState × List TraceEvent
  | [], st => (st, [])
  | c :: rest, st =>
    let toolName := c.name?.getD ""
    let toolArgs := c.arguments?.getD (.obj [])
    let toolId := c.id?.getD ("tool-" ++ toolName)
    let result := registry.call toolName userId toolArgs
    let memory := updateMemory st.memory result
    let toolMessage := Message.tool toolId (jsonDumps (.obj
      [("success", .bool result.success), ("message", .str result.message),
       ("data", .obj result.data)]))
    let st1 : LoopState :=
      { messages := st.messages ++ [toolMessage],
        rows := st.rows ++ [⟨toolName, result.success, result.message, result.data⟩],
        memory := memory }
    let next := processToolCalls registry userId rest st1
    (next.1, TraceEvent.dispatch toolName toolArgs result :: TraceEvent.saveMemory memory :: next.2)

/-- The bounded `for _ in range(max_steps)` loop of
`AgentRuntime._run_agent_loop`. -/
def runLoop (router : RouterModel) (registry : ToolRegistry) (userId : String)
    (tools : List MCPToolDefinition) :
    Nat → Bool → LoopState → AgentReply × List TraceEvent
  | 0, _, st =>
    if st.rows.isEmpty then ({ text := "处理步骤过多，请简化描述后重试。" }, [])
    else
      ({ text := fallbackToolSummary st.rows, imagePaths := collectImagePaths st.rows }, [])
  | fuel + 1, usedTools, st =>
    let step := router.nextStep st.messages tools
    let content := pyStrip (step.content.getD "")
    if step.toolCalls.isEmpty then
      if usedTools then
        let summary := router.summarizeAfterTools st.messages
        if summary ≠ "" then
          ({ text := summary, imagePaths := collectImagePaths st.rows }, [.plannerCall])
        else
          ({ text := fallbackToolSummary st.rows, imagePaths := collectImagePaths st.rows },
            [.plannerCall])
      else
        ({ text := if content = "" then "我在的，你可以告诉我想记录什么开销，或问我天气。" else content },
          [.plannerCall])
    else
      let assistantCalls := step.toolCalls.map (fun c =>
        let toolName := c.name?.getD ""
        ({ id := c.id?.getD ("tool-" ++ toolName), name := toolName,
           arguments := c.rawArguments?.getD (jsonDumps (c.arguments?.getD (.obj []))) } :
          AssistantCallEntry))
      let st1 : LoopState :=
        { st with messages := st.messages ++ [Message.assistant content assistantCalls] }
      let stepOut := processToolCalls registry userId step.toolCalls st1
      let restOut := runLoop router registry userId tools fuel true stepOut.1
      (restOut.1, TraceEvent.plannerCall :: stepOut.2 ++ restOut.2)

/-- `AgentRuntime._run_agent_loop`: seed the transcript with the system and
user prompts, then iterate up to `agent_max_steps` times. -/
def run (router : RouterModel) (registry : ToolRegistry) (settings : Settings)
    (userId text : String) (context : MCPContext) : AgentReply × List TraceEvent :=
  runLoop router registry userId registry.listTools settings.agentMaxSteps false
    { messages := [Message.system router.buildSystemPrompt,
                   Message.user (router.buildUserPrompt text context)],
      rows := [], memory := context.memory }

end AgentRuntime

/-! ## Concurrency / Delivery Controller (app/telegram/gateway.py)

The per-user `asyncio.Lock` serializes the body of `on_text_message` for one
user, so each body observes a settled `_pending_tasks` state; the model
therefore steps one handler body (or one background callback) at a time.
`asyncio.wait_for(asyncio.shield(task), timeout)` never cancels `task` when
the budget expires — it only detaches the waiter — so a task that outlives
the budget still completes with its own outcome; the model encodes this by
keeping the eventual outcome inside the pending entry. -/

namespace TelegramGateway

/-- The eventual outcome of one `runtime.handle_message` task: its reply, or
a raised exception. -/
inductive RunOutcome where
  | ok : AgentReply → RunOutcome
  | raises : RunOutcome
deriving DecidableEq

/-- How the freshly started task relates to the response budget: it either
finishes within the budget with its outcome, or outlives the budget (and
later completes with the carried outcome). -/
inductive HandlerFate where
  | withinBudget : RunOutcome → HandlerFate
  | exceedsBudget : RunOutcome → HandlerFate
deriving DecidableEq

/-- The visible actions of the controller, in program order: `replyText` is
`update.message.reply_text` (synchronous channel), `sendReply` is
`self._send_reply` (full reply delivery), `oobSendMessage` is
`bot.send_message` from the background callback, and `startRun` is
`asyncio.create_task(runtime.handle_message(...))`. -/
inductive GwAction where
  | replyText : String → GwAction
  | sendReply : AgentReply → GwAction
  | oobSendMessage : String → GwAction
  | startRun : GwAction
deriving DecidableEq

/-- The `self._pending_tasks` entry for one user: whether the task is done,
and the outcome it eventually completes with. -/
structure PendingRun where
  done : Bool
  outcome : RunOutcome
deriving DecidableEq

/-- The per-user controller state: at most one pending run. -/
structure GwState where
  pending : Option PendingRun := none
deriving DecidableEq

/-- The tail of `on_text_message` after the pending check: create the task,
record it, await it up to the budget; deliver within budget (or turn an
exception into the generic error notice), otherwise send the interim notice
and leave the entry pending for the attached completion callback. -/
def startAndWait (fate : HandlerFate) : GwState × List GwAction :=
  match fate with
  | .withinBudget (.ok reply) =>
    ({ pending := none }, [.startRun, .sendReply reply])
  | .withinBudget .raises =>
    ({ pending := none }, [.startRun, .replyText "服务暂时异常，请稍后重试。"])
  | .exceedsBudget outcome =>
    ({ pending := some { done := false, outcome := outcome } },
      [.startRun, .replyText "请求处理中，结果生成后会自动发送给你。"])

/-- One atomic execution of the body of `on_text_message` for one user.
`fate` is the behaviour the started task would have. -/
def onTextMessage (st : GwState) (fate : HandlerFate) : GwState × List GwAction :=
  match st.pending with
  | some p =>
    if !p.done then (st, [.replyText "上一条消息仍在处理中，请稍等几秒。"])
    else startAndWait fate
  | none => startAndWait fate

/-- `_deliver_background_result`, the completion callback attached when the
budget expired: deliver the task's reply, or a generic failure notice if the
run raised; clear the pending entry in either case (the `finally`). -/
def deliverBackgroundResult (st : GwState) (outcome : RunOutcome) :
    GwState × List GwAction :=
  match st, outcome with
  | _, .ok reply => ({ pending := none }, [.sendReply reply])
  | _, .raises => ({ pending := none }, [.oobSendMessage "处理失败，请稍后重试。"])

/-- Number of result deliveries (either channel) among the actions. -/
def countDeliveries (actions : List GwAction) : Nat :=
  actions.countP (fun a =>
    match a with
    | .sendReply _ => true
    | .oobSendMessage _ => true
    | _ => false)

/-- Number of interim "still running" notices among the actions. -/
def countInterimNotices (actions : List GwAction) : Nat :=
  actions.countP (fun a =>
    match a with
    | .replyText s => s == "请求处理中，结果生成后会自动发送给你。"
    | _ => false)

/-- Number of started runs among the actions. -/
def countStartRuns (actions : List GwAction) : Nat :=
  actions.countP (fun a =>
    match a with
    | .startRun => true
    | _ => false)

end TelegramGateway

/-! ## Trace observations -/

/-- Planner-invocation events. -/
def isPlannerEvent : TraceEvent → Bool
  | .plannerCall => true
  | _ => false

/-- Registry-dispatch events. -/
def isDispatchEvent : TraceEvent → Bool
  | .dispatch _ _ _ => true
  | _ => false

/-- Suppressed-call events. -/
def isSuppressEvent : TraceEvent → Bool
  | .suppress _ _ => true
  | _ => false

/-- Memory-persistence events. -/
def isSaveEvent : TraceEvent → Bool
  | .saveMemory _ => true
  | _ => false

/-- Number of planner invocations in a run's trace. -/
def countPlannerCalls (tr : List TraceEvent) : Nat := tr.countP isPlannerEvent

/-- Number of registry dispatches in a run's trace. -/
def countDispatches (tr : List TraceEvent) : Nat := tr.countP isDispatchEvent

/-- Number of suppressed repeated calls in a run's trace. -/
def countSuppressions (tr : List TraceEvent) : Nat := tr.countP isSuppressEvent

/-- Number of memory persistences in a run's trace. -/
def countSaves (tr : List TraceEvent) : Nat := tr.countP isSaveEvent

/-- The memory snapshots persisted during a run, in order. -/
def savedMemories (tr : List TraceEvent) : List MCPMemory :=
  tr.filterMap (fun e =>
    match e with
    | .saveMemory m => some m
    | _ => none)

/-- The result row recorded for one dispatch or suppression event. -/
def rowOfEvent : TraceEvent → Option ToolRow
  | .dispatch n _ r => some ⟨n, r.success, r.message, r.data⟩
  | .suppress n _ =>
    some ⟨n, AgentLoopEngine.suppressedResult.success,
      AgentLoopEngine.suppressedResult.message, AgentLoopEngine.suppressedResult.data⟩
  | _ => none

/-- The tool-result rows a run collects, read off its trace. -/
def rowsOfTrace (tr : List TraceEvent) : List ToolRow := tr.filterMap rowOfEvent

/-- Scanning check that no event dispatches a signature that an earlier
dispatch of the same trace already failed with — the formal content of the
loop-detection invariant ("a failed CallSignature is never re-dispatched"). -/
def noRedispatchAfterFailure : List TraceEvent → List String → Bool
  | [], _ => true
  | .dispatch n a r :: tr, bad =>
    let s := AgentLoopEngine.buildCallSignature n a
    !(decide (s ∈ bad)) && noRedispatchAfterFailure tr (if r.success then bad else s :: bad)
  | _ :: tr, bad => noRedispatchAfterFailure tr bad

/-- The failed signatures accumulated by the scan of
`noRedispatchAfterFailure`. -/
def failedSigsAfter : List TraceEvent → List String → List String
  | [], bad => bad
  | .dispatch n a r :: tr, bad =>
    failedSigsAfter tr (if r.success then bad else AgentLoopEngine.buildCallSignature n a :: bad)
  | _ :: tr, bad => failedSigsAfter tr bad

/-- First-occurrence deduplication — the specification-side description of
the image-path dedup loop: keep each path's first occurrence, drop the rest,
preserve order. -/
def dedupFirstOccurrence : List String → List String
  | [] => []
  | x :: xs => x :: dedupFirstOccurrence (xs.filter (fun y => y ≠ x))
termination_by l => l.length
decreasing_by
  simp only [List.length_cons]
  exact Nat.lt_succ_of_le (List.length_filter_le _ _)

/-! ## Fixtures and claim-level auxiliary definitions -/

/-- Fixture: a router whose planner always answers with plain content and no
tool calls. -/
def routerHello : RouterModel :=
  { nextStep := fun _ _ => { content := some "hello", toolCalls := [] },
    summarizeAfterTools := fun _ => "",
    buildSystemPrompt := "system", buildUserPrompt := fun _ _ => "user" }

/-- Fixture: the empty registry. -/
def emptyRegistry : ToolRegistry := { definitions := [], handlers := [] }

/-- Fixture: a minimal user context. -/
def ctxU : MCPContext := { user := { id := "u" } }

/-- Fixture: a registry serving a chart-producing and a screenshot-producing
tool whose results carry the paths `x.png`, `y.png` and `x.png`. -/
def imageRegistry : ToolRegistry :=
  { definitions :=
      [{ name := "visualize_expenses", description := "", inputSchema := { properties := [] } },
       { name := "capture_website_screenshot", description := "",
         inputSchema := { properties := [] } }],
    handlers :=
      [("visualize_expenses", fun _ _ =>
          { success := true,
            data := [("charts", .arr [.obj [("path", .str "x.png")],
                                      .obj [("path", .str "y.png")]])] }),
       ("capture_website_screenshot", fun _ _ =>
          { success := true, data := [("path", .str "x.png")] })] }

/-- Fixture: a planner that requests the two image-producing calls on its
first step and terminates on the next; a narrative summary is available. -/
def routerImages : RouterModel :=
  { nextStep := fun messages _ =>
      if messages.length == 2 then
        { content := some "",
          toolCalls := [{ name? := some "visualize_expenses", arguments? := some (.obj []) },
                        { name? := some "capture_website_screenshot",
                          arguments? := some (.obj []) }] }
      else { content := some "", toolCalls := [] },
    summarizeAfterTools := fun _ => "ok",
    buildSystemPrompt := "system", buildUserPrompt := fun _ _ => "user" }

/-- The signatures of failed dispatches in a trace, in order. -/
def failsOf (tr : List TraceEvent) : List String :=
  tr.filterMap (fun e =>
    match e with
    | .dispatch n a r =>
      if r.success then none else some (AgentLoopEngine.buildCallSignature n a)
    | _ => none)

/-- The successive memory values persisted when the results of the given
rows are folded through `_update_memory`, starting from `mem`. -/
def memorySeq (mem : MCPMemory) : List ToolRow → List MCPMemory
  | [] => []
  | row :: rest =>
    let m := AgentLoopEngine.updateMemory mem
      { success := row.success, data := row.data, message := row.message }
    m :: memorySeq m rest

/-- The exhaustion reply of `AgentLoopEngine.run` (the code after the loop). -/
def AgentLoopEngine.exhaustReply (rows : List ToolRow) : AgentReply :=
  if rows.isEmpty then { text := "处理步骤过多，请简化描述后重试。" }
  else
    { text := AgentLoopEngine.fallbackToolSummary rows,
      imagePaths := AgentLoopEngine.collectImagePaths rows }

/-- The exhaustion reply of `AgentRuntime._run_agent_loop`. -/
def AgentRuntime.exhaustReply (rows : List ToolRow) : AgentReply :=
  if rows.isEmpty then { text := "处理步骤过多，请简化描述后重试。" }
  else
    { text := AgentRuntime.fallbackToolSummary rows,
      imagePaths := AgentRuntime.collectImagePaths rows }

/-- Fixture: a planner that requests the same call `t({})` on every step. -/
def routerAlways : RouterModel :=
  { nextStep := fun _ _ =>
      { content := some "", toolCalls := [{ name? := some "t", arguments? := some (.obj []) }] },
    summarizeAfterTools := fun _ => "",
    buildSystemPrompt := "system", buildUserPrompt := fun _ _ => "user" }

/-- Fixture: a registry whose only tool `t` always fails. -/
def registryFail : ToolRegistry :=
  { definitions := [{ name := "t", description := "", inputSchema := { properties := [] } }],
    handlers := [("t", fun _ _ => { success := false, message := "no" })] }

/-- Fixture: a planner that repeats the same failing call `t({"a": 1})`
forever. -/
def routerRepeat : RouterModel :=
  { nextStep := fun _ _ =>
      { content := some "",
        toolCalls := [{ name? := some "t", arguments? := some (.obj [("a", .num "1")]) }] },
    summarizeAfterTools := fun _ => "",
    buildSystemPrompt := "system", buildUserPrompt := fun _ _ => "user" }

/-- Fixture: a planner that requests the failing `t({"a": 1})`, then both
`t({"a": 1})` again and `t({"a": 2})`, then stops. -/
def routerTwo : RouterModel :=
  { nextStep := fun messages _ =>
      if messages.length == 2 then
        { content := some "",
          toolCalls := [{ name? := some "t", arguments? := some (.obj [("a", .num "1")]) }] }
      else if messages.length == 4 then
        { content := some "",
          toolCalls := [{ name? := some "t", arguments? := some (.obj [("a", .num "1")]) },
                        { name? := some "t", arguments? := some (.obj [("a", .num "2")]) }] }
      else { content := some "", toolCalls := [] },
    summarizeAfterTools := fun _ => "",
    buildSystemPrompt := "system", buildUserPrompt := fun _ _ => "user" }

/-! ## Claim C6 — registry dispatch never raises -/

/-- Claim C6: for every tool name with no registered handler and every user
id and arguments, `ToolRegistry.call` returns a `success=false` result with
a descriptive (non-empty) message instead of raising; for every registered
name it returns the handler's result unchanged. -/
theorem c6_registry_dispatch (reg : ToolRegistry) (toolName userId : String)
    (arguments : JValue) :
    (assocLookup reg.handlers toolName = none →
      reg.call toolName userId arguments =
        { success := false, data := [],
          message := "Tool handler not registered: " ++ toolName } ∧
      (reg.call toolName userId arguments).message ≠ "") ∧
    (∀ handler, assocLookup reg.handlers toolName = some handler →
      reg.call toolName userId arguments = handler userId arguments) := by
  refine ⟨fun h => ⟨by simp [ToolRegistry.call, h], ?_⟩,
    fun handler h => by simp [ToolRegistry.call, h]⟩
  simp only [ToolRegistry.call, h]
  intro hh
  have hlen := congrArg String.length hh
  have h29 : ("Tool handler not registered: ").length = 29 := rfl
  have h0 : ("" : String).length = 0 := rfl
  rw [String.length_append, h29, h0] at hlen
  omega

/-- Witness for C6 at concrete inputs: an empty registry rejects
`get_weather` with the descriptive failure envelope, and a registry holding a
handler for `"t"` returns that handler's result unchanged. -/
theorem c6_registry_dispatch_witness :
    ToolRegistry.call { definitions := [], handlers := [] } "get_weather" "u" (.obj []) =
      { success := false, data := [],
        message := "Tool handler not registered: get_weather" } ∧
    ToolRegistry.call
        { definitions := [], handlers := [("t", fun _ _ => { success := true, message := "ok" })] }
        "t" "u" (.obj []) =
      { success := true, data := [], message := "ok" } := by
  refine ⟨((c6_registry_dispatch { definitions := [], handlers := [] }
      "get_weather" "u" (.obj [])).1 rfl).1, ?_⟩
  exact (c6_registry_dispatch
    { definitions := [], handlers := [("t", fun _ _ => { success := true, message := "ok" })] }
    "t" "u" (.obj [])).2 (fun _ _ => { success := true, message := "ok" }) rfl

/-! ## Claims C2 and C3 — controller serialization and delivery -/

/-- Claim C2: at most one pending run per user.  A handler body that finds an
incomplete pending run replies the fixed "still processing" notice
immediately, starts no task, delivers nothing, and leaves the state (hence
the original run) untouched; a handler body that finds no pending run
delivers the started run's reply exactly once; and in the over-budget
scenario a second message arriving while the run is incomplete gets only the
notice, while the whole exchange still delivers the original result exactly
once. -/
theorem c2_per_user_serialization :
    (∀ (o : TelegramGateway.RunOutcome) (fate : TelegramGateway.HandlerFate),
      TelegramGateway.onTextMessage { pending := some { done := false, outcome := o } } fate =
        ({ pending := some { done := false, outcome := o } },
          [.replyText "上一条消息仍在处理中，请稍等几秒。"]) ∧
      TelegramGateway.countStartRuns
        (TelegramGateway.onTextMessage
          { pending := some { done := false, outcome := o } } fate).2 = 0 ∧
      TelegramGateway.countDeliveries
        (TelegramGateway.onTextMessage
          { pending := some { done := false, outcome := o } } fate).2 = 0) ∧
    (∀ reply : AgentReply,
      TelegramGateway.onTextMessage { pending := none }
          (.withinBudget (.ok reply)) =
        ({ pending := none }, [.startRun, .sendReply reply])) ∧
    (∀ (o : TelegramGateway.RunOutcome) (fate : TelegramGateway.HandlerFate),
      TelegramGateway.countDeliveries
          ((TelegramGateway.onTextMessage { pending := none } (.exceedsBudget o)).2
            ++ (TelegramGateway.onTextMessage
                (TelegramGateway.onTextMessage { pending := none } (.exceedsBudget o)).1
                fate).2
            ++ (TelegramGateway.deliverBackgroundResult
                (TelegramGateway.onTextMessage
                  (TelegramGateway.onTextMessage { pending := none } (.exceedsBudget o)).1
                  fate).1 o).2) = 1 ∧
      TelegramGateway.countStartRuns
          ((TelegramGateway.onTextMessage
            (TelegramGateway.onTextMessage { pending := none } (.exceedsBudget o)).1
            fate).2) = 0) := by
  refine ⟨fun o fate => ?_, fun reply => rfl, fun o fate => ?_⟩
  · refine ⟨rfl, ?_, ?_⟩ <;>
      simp [TelegramGateway.onTextMessage, TelegramGateway.countStartRuns,
        TelegramGateway.countDeliveries]
  · cases o <;>
      simp [TelegramGateway.onTextMessage, TelegramGateway.startAndWait,
        TelegramGateway.deliverBackgroundResult, TelegramGateway.countDeliveries,
        TelegramGateway.countStartRuns]

/-- Claim C3: budget expiry never cancels the run.  The over-budget handler
sends the interim notice once, delivers nothing itself, and keeps the
still-running task (with its eventual outcome intact) as the pending entry;
the background callback then performs exactly one final delivery — the run's
own reply, or the generic failure notice if the run raised — and the pending
entry is cleared in every outcome (in-budget success, in-budget failure, and
timeout followed by late completion). -/
theorem c3_timeout_does_not_cancel :
    (∀ o : TelegramGateway.RunOutcome,
      TelegramGateway.onTextMessage { pending := none } (.exceedsBudget o) =
        ({ pending := some { done := false, outcome := o } },
          [.startRun, .replyText "请求处理中，结果生成后会自动发送给你。"])) ∧
    (∀ (st : TelegramGateway.GwState) (reply : AgentReply),
      TelegramGateway.deliverBackgroundResult st (.ok reply) =
        ({ pending := none }, [.sendReply reply])) ∧
    (∀ st : TelegramGateway.GwState,
      TelegramGateway.deliverBackgroundResult st .raises =
        ({ pending := none }, [.oobSendMessage "处理失败，请稍后重试。"])) ∧
    (∀ o : TelegramGateway.RunOutcome,
      TelegramGateway.countInterimNotices
          ((TelegramGateway.onTextMessage { pending := none } (.exceedsBudget o)).2
            ++ (TelegramGateway.deliverBackgroundResult
                (TelegramGateway.onTextMessage { pending := none } (.exceedsBudget o)).1 o).2) = 1 ∧
      TelegramGateway.countDeliveries
          ((TelegramGateway.onTextMessage { pending := none } (.exceedsBudget o)).2
            ++ (TelegramGateway.deliverBackgroundResult
                (TelegramGateway.onTextMessage { pending := none } (.exceedsBudget o)).1 o).2) = 1 ∧
      (TelegramGateway.deliverBackgroundResult
          (TelegramGateway.onTextMessage { pending := none } (.exceedsBudget o)).1 o).1.pending
        = none) ∧
    (∀ reply : AgentReply,
      (TelegramGateway.onTextMessage { pending := none }
        (.withinBudget (.ok reply))).1.pending = none) ∧
    (TelegramGateway.onTextMessage { pending := none }
      (.withinBudget .raises)).1.pending = none := by
  refine ⟨fun o => rfl, fun st reply => by cases st; rfl, fun st => by cases st; rfl,
    fun o => ?_, fun reply => rfl, rfl⟩
  cases o <;>
    simp [TelegramGateway.onTextMessage, TelegramGateway.startAndWait,
      TelegramGateway.deliverBackgroundResult, TelegramGateway.countInterimNotices,
      TelegramGateway.countDeliveries]

/-! ## Claim C9 — direct-answer path -/

/-- Claim C9: in a run whose first planner step returns no tool calls, both
loops return a reply built directly from the step's stripped content (the
fixed default greeting when it is empty) with an empty image-path list, after
exactly one planner invocation. -/
theorem c9_no_tool_path (router : RouterModel) (registry : ToolRegistry)
    (settings : Settings) (userId text : String) (context : MCPContext)
    (hSteps : 0 < settings.agentMaxSteps)
    (hNoCalls : (router.nextStep
        [Message.system router.buildSystemPrompt,
         Message.user (router.buildUserPrompt text context)]
        registry.listTools).toolCalls = []) :
    AgentLoopEngine.run router registry settings userId text context =
      ({ text :=
          (if pyStrip ((router.nextStep
              [Message.system router.buildSystemPrompt,
               Message.user (router.buildUserPrompt text context)]
              registry.listTools).content.getD "") = ""
           then "我在的，你可以告诉我想记录什么开销，或问我天气。"
           else pyStrip ((router.nextStep
              [Message.system router.buildSystemPrompt,
               Message.user (router.buildUserPrompt text context)]
              registry.listTools).content.getD "")),
         imagePaths := [] },
        [TraceEvent.plannerCall]) ∧
    AgentRuntime.run router registry settings userId text context =
      ({ text :=
          (if pyStrip ((router.nextStep
              [Message.system router.buildSystemPrompt,
               Message.user (router.buildUserPrompt text context)]
              registry.listTools).content.getD "") = ""
           then "我在的，你可以告诉我想记录什么开销，或问我天气。"
           else pyStrip ((router.nextStep
              [Message.system router.buildSystemPrompt,
               Message.user (router.buildUserPrompt text context)]
              registry.listTools).content.getD "")),
         imagePaths := [] },
        [TraceEvent.plannerCall]) := by
  obtain ⟨n, hn⟩ : ∃ n, settings.agentMaxSteps = n + 1 :=
    ⟨settings.agentMaxSteps - 1, by omega⟩
  constructor
  · simp [AgentLoopEngine.run, hn, AgentLoopEngine.runLoop, hNoCalls]
  · simp [AgentRuntime.run, hn, AgentRuntime.runLoop, hNoCalls]

/-- Witness for C9: with content `"hello"` and the default settings (six
steps), both loops reply `AgentReply(text="hello")` with no image paths. -/
theorem c9_no_tool_path_witness :
    AgentLoopEngine.run routerHello emptyRegistry {} "u" "hi" ctxU =
      ({ text := "hello", imagePaths := [] }, [TraceEvent.plannerCall]) ∧
    AgentRuntime.run routerHello emptyRegistry {} "u" "hi" ctxU =
      ({ text := "hello", imagePaths := [] }, [TraceEvent.plannerCall]) := by
  have h := c9_no_tool_path routerHello emptyRegistry {} "u" "hi" ctxU (by decide) rfl
  exact ⟨h.1.trans (by decide), h.2.trans (by decide)⟩

/-! ## Claim C7 — planner-port error absorption -/

/-- Claim C7: `next_step` absorbs provider errors.  On a non-empty transcript
a router without a client, and a router whose provider call raises an
`APIError`, both return the deterministic heuristic step computed from the
last message's content instead of surfacing an exception. -/
theorem c7_planner_error_absorbed (messages : List Message)
    (tools : List MCPToolDefinition) (lastMsg : Message)
    (hLast : messages.getLast? = some lastMsg) :
    LLMRouter.nextStep none messages tools =
      some (LLMRouter.heuristicStep lastMsg.content) ∧
    (∀ (provider : LLMRouter.LLMProvider) (err : LLMRouter.APIErrorModel),
      provider messages (LLMRouter.toOpenaiTools tools) = .error err →
      LLMRouter.nextStep (some provider) messages tools =
        some (LLMRouter.heuristicStep lastMsg.content)) := by
  constructor
  · simp [LLMRouter.nextStep, hLast]
  · intro provider err hErr
    simp [LLMRouter.nextStep, hErr, hLast]

/-- Witness for C7: a provider that always raises degrades to the heuristic
greeting step on the transcript `[user "你好"]`. -/
theorem c7_planner_error_absorbed_witness :
    LLMRouter.nextStep (some (fun _ _ => .error { message := "boom" }))
        [Message.user "你好"] [] =
      some { content := some "你好，我可以帮你记账、查天气和管理任务。", toolCalls := [] } ∧
    LLMRouter.nextStep none [Message.user "你好"] [] =
      some { content := some "你好，我可以帮你记账、查天气和管理任务。", toolCalls := [] } := by
  have h := c7_planner_error_absorbed [Message.user "你好"] [] (Message.user "你好") rfl
  exact ⟨(h.2 (fun _ _ => .error { message := "boom" }) { message := "boom" } rfl).trans
      (by decide),
    h.1.trans (by decide)⟩


/-! ## Claim C8 — image-path aggregation -/

/-- Membership in the first-occurrence dedup implies membership in the
source list. -/
theorem mem_dedupFirstOccurrence (l : List String) (a : String) :
    a ∈ dedupFirstOccurrence l → a ∈ l := by
  induction l using dedupFirstOccurrence.induct with
  | case1 => simp [dedupFirstOccurrence]
  | case2 x xs ih =>
    rw [dedupFirstOccurrence]
    intro h
    rcases List.mem_cons.mp h with h | h
    · exact h ▸ List.mem_cons_self x xs
    · exact List.mem_cons_of_mem x (List.mem_filter.mp (ih h)).1

/-- The first-occurrence dedup has no duplicates. -/
theorem nodup_dedupFirstOccurrence (l : List String) :
    (dedupFirstOccurrence l).Nodup := by
  induction l using dedupFirstOccurrence.induct with
  | case1 => simp [dedupFirstOccurrence]
  | case2 x xs ih =>
    rw [dedupFirstOccurrence]
    refine List.nodup_cons.mpr ⟨fun hx => ?_, ih⟩
    have := (List.mem_filter.mp (mem_dedupFirstOccurrence _ _ hx)).2
    simp at this

/-- The engine's `seen`/`unique` loop is the first-occurrence dedup of the
unseen part, appended to the accumulator. -/
theorem engine_dedupLoopAux_eq (l : List String) :
    ∀ seen acc, AgentLoopEngine.dedupLoopAux seen acc l =
      acc ++ dedupFirstOccurrence (l.filter (fun p => p ∉ seen)) := by
  induction l with
  | nil => intro seen acc; simp [AgentLoopEngine.dedupLoopAux, dedupFirstOccurrence]
  | cons p rest ih =>
    intro seen acc
    by_cases hmem : p ∈ seen
    · rw [AgentLoopEngine.dedupLoopAux, if_pos hmem, ih]
      simp [List.filter_cons, hmem]
    · rw [AgentLoopEngine.dedupLoopAux, if_neg hmem, ih]
      have hfilter : rest.filter (fun q => decide (q ∉ p :: seen)) =
          (rest.filter (fun q => decide (q ∉ seen))).filter (fun q => decide (q ≠ p)) := by
        rw [List.filter_filter]
        apply List.filter_congr
        intro q _
        simp only [List.mem_cons, not_or]
        simp [Bool.and_comm]
      simp only [List.filter_cons]
      rw [if_pos (by simpa using hmem)]
      rw [dedupFirstOccurrence, hfilter]
      simp [List.append_assoc]

/-- The runtime's `seen`/`unique` loop computes the same function. -/
theorem runtime_dedupLoopAux_eq (l : List String) :
    ∀ seen acc, AgentRuntime.dedupLoopAux seen acc l =
      acc ++ dedupFirstOccurrence (l.filter (fun p => p ∉ seen)) := by
  induction l with
  | nil => intro seen acc; simp [AgentRuntime.dedupLoopAux, dedupFirstOccurrence]
  | cons p rest ih =>
    intro seen acc
    by_cases hmem : p ∈ seen
    · rw [AgentRuntime.dedupLoopAux, if_pos hmem, ih]
      simp [List.filter_cons, hmem]
    · rw [AgentRuntime.dedupLoopAux, if_neg hmem, ih]
      have hfilter : rest.filter (fun q => decide (q ∉ p :: seen)) =
          (rest.filter (fun q => decide (q ∉ seen))).filter (fun q => decide (q ≠ p)) := by
        rw [List.filter_filter]
        apply List.filter_congr
        intro q _
        simp only [List.mem_cons, not_or]
        simp [Bool.and_comm]
      simp only [List.filter_cons]
      rw [if_pos (by simpa using hmem)]
      rw [dedupFirstOccurrence, hfilter]
      simp [List.append_assoc]

/-- Claim C8: both `_collect_image_paths` implementations return exactly the
first-occurrence deduplication of the paths harvested from every tool result
in order (hence a list without duplicates), and a run producing the paths
`x.png`, `y.png`, `x.png` across two results replies with the image list
`["x.png", "y.png"]`. -/
theorem c8_image_path_dedup :
    (∀ rows : List ToolRow,
      AgentLoopEngine.collectImagePaths rows =
          dedupFirstOccurrence (AgentLoopEngine.harvestPaths rows) ∧
        (AgentLoopEngine.collectImagePaths rows).Nodup) ∧
    (∀ rows : List ToolRow,
      AgentRuntime.collectImagePaths rows =
          dedupFirstOccurrence (AgentRuntime.harvestPaths rows) ∧
        (AgentRuntime.collectImagePaths rows).Nodup) ∧
    (AgentRuntime.run routerImages imageRegistry {} "u" "txt" ctxU).1.imagePaths =
      ["x.png", "y.png"] ∧
    (AgentLoopEngine.run routerImages imageRegistry {} "u" "txt" ctxU).1.imagePaths =
      ["x.png", "y.png"] := by
  have hEng : ∀ rows : List ToolRow,
      AgentLoopEngine.collectImagePaths rows =
        dedupFirstOccurrence (AgentLoopEngine.harvestPaths rows) := by
    intro rows
    rw [AgentLoopEngine.collectImagePaths, engine_dedupLoopAux_eq]
    simp
  have hRt : ∀ rows : List ToolRow,
      AgentRuntime.collectImagePaths rows =
        dedupFirstOccurrence (AgentRuntime.harvestPaths rows) := by
    intro rows
    rw [AgentRuntime.collectImagePaths, runtime_dedupLoopAux_eq]
    simp
  refine ⟨fun rows => ⟨hEng rows, ?_⟩, fun rows => ⟨hRt rows, ?_⟩, by decide, by decide⟩
  · rw [hEng rows]; exact nodup_dedupFirstOccurrence _
  · rw [hRt rows]; exact nodup_dedupFirstOccurrence _

/-! ## Counting and projection lemmas for run traces -/

theorem countSaves_append (t1 t2 : List TraceEvent) :
    countSaves (t1 ++ t2) = countSaves t1 + countSaves t2 := by
  simp [countSaves, List.countP_append]

theorem countDispatches_append (t1 t2 : List TraceEvent) :
    countDispatches (t1 ++ t2) = countDispatches t1 + countDispatches t2 := by
  simp [countDispatches, List.countP_append]

theorem countSuppressions_append (t1 t2 : List TraceEvent) :
    countSuppressions (t1 ++ t2) = countSuppressions t1 + countSuppressions t2 := by
  simp [countSuppressions, List.countP_append]

theorem countPlannerCalls_append (t1 t2 : List TraceEvent) :
    countPlannerCalls (t1 ++ t2) = countPlannerCalls t1 + countPlannerCalls t2 := by
  simp [countPlannerCalls, List.countP_append]

theorem countSaves_cons (e : TraceEvent) (t : List TraceEvent) :
    countSaves (e :: t) = countSaves t + if isSaveEvent e then 1 else 0 := by
  simp [countSaves, List.countP_cons]

theorem countDispatches_cons (e : TraceEvent) (t : List TraceEvent) :
    countDispatches (e :: t) = countDispatches t + if isDispatchEvent e then 1 else 0 := by
  simp [countDispatches, List.countP_cons]

theorem countSuppressions_cons (e : TraceEvent) (t : List TraceEvent) :
    countSuppressions (e :: t) = countSuppressions t + if isSuppressEvent e then 1 else 0 := by
  simp [countSuppressions, List.countP_cons]

theorem countPlannerCalls_cons (e : TraceEvent) (t : List TraceEvent) :
    countPlannerCalls (e :: t) = countPlannerCalls t + if isPlannerEvent e then 1 else 0 := by
  simp [countPlannerCalls, List.countP_cons]

theorem countSaves_nil : countSaves [] = 0 := rfl

theorem countDispatches_nil : countDispatches [] = 0 := rfl

theorem countSuppressions_nil : countSuppressions [] = 0 := rfl

theorem countPlannerCalls_nil : countPlannerCalls [] = 0 := rfl

theorem rowsOfTrace_append (t1 t2 : List TraceEvent) :
    rowsOfTrace (t1 ++ t2) = rowsOfTrace t1 ++ rowsOfTrace t2 := by
  simp [rowsOfTrace, List.filterMap_append]

theorem rowsOfTrace_cons (e : TraceEvent) (t : List TraceEvent) :
    rowsOfTrace (e :: t) = (rowOfEvent e).toList ++ rowsOfTrace t := by
  cases e <;> simp [rowsOfTrace, List.filterMap_cons, rowOfEvent]

theorem rowsOfTrace_nil : rowsOfTrace [] = [] := rfl

theorem savedMemories_append (t1 t2 : List TraceEvent) :
    savedMemories (t1 ++ t2) = savedMemories t1 ++ savedMemories t2 := by
  simp [savedMemories, List.filterMap_append]

theorem savedMemories_cons_save (m : MCPMemory) (t : List TraceEvent) :
    savedMemories (TraceEvent.saveMemory m :: t) = m :: savedMemories t := by
  simp [savedMemories, List.filterMap_cons]

theorem savedMemories_cons_dispatch (n : String) (a : JValue) (r : MCPToolResult)
    (t : List TraceEvent) :
    savedMemories (TraceEvent.dispatch n a r :: t) = savedMemories t := by
  simp [savedMemories, List.filterMap_cons]

theorem savedMemories_cons_suppress (n : String) (a : JValue) (t : List TraceEvent) :
    savedMemories (TraceEvent.suppress n a :: t) = savedMemories t := by
  simp [savedMemories, List.filterMap_cons]

theorem savedMemories_cons_planner (t : List TraceEvent) :
    savedMemories (TraceEvent.plannerCall :: t) = savedMemories t := by
  simp [savedMemories, List.filterMap_cons]

theorem savedMemories_nil : savedMemories [] = [] := rfl

/-! ## Failed-signature bookkeeping over traces -/

theorem failsOf_nil : failsOf [] = [] := rfl

theorem failsOf_append (t1 t2 : List TraceEvent) :
    failsOf (t1 ++ t2) = failsOf t1 ++ failsOf t2 := by
  simp [failsOf, List.filterMap_append]

theorem failedSigsAfter_eq_failsOf (tr : List TraceEvent) :
    ∀ bad, failedSigsAfter tr bad = (failsOf tr).reverse ++ bad := by
  induction tr with
  | nil => intro bad; simp [failedSigsAfter, failsOf]
  | cons e rest ih =>
    intro bad
    cases e with
    | dispatch n a r =>
      by_cases hs : r.success
      · simp [failedSigsAfter, failsOf, List.filterMap_cons, hs, ih]
      · simp [failedSigsAfter, failsOf, List.filterMap_cons, hs, ih]
    | plannerCall => simp [failedSigsAfter, failsOf, List.filterMap_cons, ih]
    | suppress n a => simp [failedSigsAfter, failsOf, List.filterMap_cons, ih]
    | saveMemory m => simp [failedSigsAfter, failsOf, List.filterMap_cons, ih]

theorem noRedispatch_cons_planner (t : List TraceEvent) (bad : List String) :
    noRedispatchAfterFailure (TraceEvent.plannerCall :: t) bad =
      noRedispatchAfterFailure t bad := rfl

theorem noRedispatch_cons_suppress (n : String) (a : JValue) (t : List TraceEvent)
    (bad : List String) :
    noRedispatchAfterFailure (TraceEvent.suppress n a :: t) bad =
      noRedispatchAfterFailure t bad := rfl

theorem noRedispatch_cons_save (m : MCPMemory) (t : List TraceEvent) (bad : List String) :
    noRedispatchAfterFailure (TraceEvent.saveMemory m :: t) bad =
      noRedispatchAfterFailure t bad := rfl

theorem noRedispatch_cons_dispatch (n : String) (a : JValue) (r : MCPToolResult)
    (t : List TraceEvent) (bad : List String) :
    noRedispatchAfterFailure (TraceEvent.dispatch n a r :: t) bad =
      (!(decide (AgentLoopEngine.buildCallSignature n a ∈ bad)) &&
        noRedispatchAfterFailure t
          (if r.success then bad else AgentLoopEngine.buildCallSignature n a :: bad)) := rfl

theorem noRedispatch_append (t1 t2 : List TraceEvent) :
    ∀ bad, noRedispatchAfterFailure (t1 ++ t2) bad =
      (noRedispatchAfterFailure t1 bad &&
        noRedispatchAfterFailure t2 (failedSigsAfter t1 bad)) := by
  induction t1 with
  | nil => intro bad; simp [noRedispatchAfterFailure, failedSigsAfter]
  | cons e rest ih =>
    intro bad
    cases e <;>
      simp [noRedispatchAfterFailure, failedSigsAfter, ih, Bool.and_assoc]

theorem noRedispatch_nil (bad : List String) : noRedispatchAfterFailure [] bad = true := rfl

/-! ## Per-step dispatch-loop lemmas (engine) -/

theorem engine_ptc_saves (registry : ToolRegistry) (userId : String)
    (calls : List PlannedToolCall) :
    ∀ st, countSaves (AgentLoopEngine.processToolCalls registry userId calls st).2 =
      calls.length := by
  induction calls with
  | nil => intro st; simp [AgentLoopEngine.processToolCalls, countSaves_nil]
  | cons c rest ih =>
    intro st
    rw [AgentLoopEngine.processToolCalls]
    by_cases h : AgentLoopEngine.buildCallSignature (c.name?.getD "")
        (c.arguments?.getD (.obj [])) ∈ st.failedSignatures
    · simp [if_pos h, countSaves_append, countSaves_cons, countSaves_nil, isSaveEvent, ih]
    · simp [if_neg h, countSaves_append, countSaves_cons, countSaves_nil, isSaveEvent, ih]

theorem engine_ptc_planner (registry : ToolRegistry) (userId : String)
    (calls : List PlannedToolCall) :
    ∀ st, countPlannerCalls (AgentLoopEngine.processToolCalls registry userId calls st).2 = 0 := by
  induction calls with
  | nil => intro st; simp [AgentLoopEngine.processToolCalls, countPlannerCalls_nil]
  | cons c rest ih =>
    intro st
    rw [AgentLoopEngine.processToolCalls]
    by_cases h : AgentLoopEngine.buildCallSignature (c.name?.getD "")
        (c.arguments?.getD (.obj [])) ∈ st.failedSignatures
    · simp [if_pos h, countPlannerCalls_append, countPlannerCalls_cons, countPlannerCalls_nil,
        isPlannerEvent, ih]
    · simp [if_neg h, countPlannerCalls_append, countPlannerCalls_cons, countPlannerCalls_nil,
        isPlannerEvent, ih]

theorem engine_ptc_saves_eq_ds (registry : ToolRegistry) (userId : String)
    (calls : List PlannedToolCall) :
    ∀ st, countSaves (AgentLoopEngine.processToolCalls registry userId calls st).2 =
      countDispatches (AgentLoopEngine.processToolCalls registry userId calls st).2 +
        countSuppressions (AgentLoopEngine.processToolCalls registry userId calls st).2 := by
  induction calls with
  | nil =>
    intro st
    simp [AgentLoopEngine.processToolCalls, countSaves_nil, countDispatches_nil,
      countSuppressions_nil]
  | cons c rest ih =>
    intro st
    rw [AgentLoopEngine.processToolCalls]
    by_cases h : AgentLoopEngine.buildCallSignature (c.name?.getD "")
        (c.arguments?.getD (.obj [])) ∈ st.failedSignatures
    · simp [if_pos h, countSaves_append, countSaves_cons, countSaves_nil,
        countDispatches_append, countDispatches_cons, countDispatches_nil,
        countSuppressions_append, countSuppressions_cons, countSuppressions_nil,
        isSaveEvent, isDispatchEvent, isSuppressEvent, ih]
      omega
    · simp [if_neg h, countSaves_append, countSaves_cons, countSaves_nil,
        countDispatches_append, countDispatches_cons, countDispatches_nil,
        countSuppressions_append, countSuppressions_cons, countSuppressions_nil,
        isSaveEvent, isDispatchEvent, isSuppressEvent, ih]
      omega

theorem engine_ptc_rows (registry : ToolRegistry) (userId : String)
    (calls : List PlannedToolCall) :
    ∀ st, (AgentLoopEngine.processToolCalls registry userId calls st).1.rows =
      st.rows ++ rowsOfTrace (AgentLoopEngine.processToolCalls registry userId calls st).2 := by
  induction calls with
  | nil => intro st; simp [AgentLoopEngine.processToolCalls, rowsOfTrace_nil]
  | cons c rest ih =>
    intro st
    rw [AgentLoopEngine.processToolCalls]
    by_cases h : AgentLoopEngine.buildCallSignature (c.name?.getD "")
        (c.arguments?.getD (.obj [])) ∈ st.failedSignatures
    · simp [if_pos h, rowsOfTrace_append, rowsOfTrace_cons, rowsOfTrace_nil, rowOfEvent, ih]
    · simp [if_neg h, rowsOfTrace_append, rowsOfTrace_cons, rowsOfTrace_nil, rowOfEvent, ih]

theorem engine_ptc_failedSignatures (registry : ToolRegistry) (userId : String)
    (calls : List PlannedToolCall) :
    ∀ st, (AgentLoopEngine.processToolCalls registry userId calls st).1.failedSignatures =
      st.failedSignatures ++
        failsOf (AgentLoopEngine.processToolCalls registry userId calls st).2 := by
  induction calls with
  | nil => intro st; simp [AgentLoopEngine.processToolCalls, failsOf_nil]
  | cons c rest ih =>
    intro st
    rw [AgentLoopEngine.processToolCalls]
    by_cases h : AgentLoopEngine.buildCallSignature (c.name?.getD "")
        (c.arguments?.getD (.obj [])) ∈ st.failedSignatures
    · simp [if_pos h, failsOf_append, failsOf, List.filterMap_cons, ih]
    · by_cases hs : (registry.call (c.name?.getD "") userId (c.arguments?.getD (.obj []))).success
      · simp [if_neg h, failsOf_append, failsOf, List.filterMap_cons, hs, ih]
      · simp [if_neg h, failsOf_append, failsOf, List.filterMap_cons, hs, ih]

/-! ## Memory persistence lemmas -/

theorem updateMemory_nodup (mem : MCPMemory) (result : MCPToolResult)
    (h : mem.frequentCategories.Nodup) :
    (AgentLoopEngine.updateMemory mem result).frequentCategories.Nodup := by
  rw [AgentLoopEngine.updateMemory]
  split
  · rename_i category heq
    by_cases hb : (result.success && category.isTruthy) = true
    · rw [if_pos hb]
      by_cases hmem : category ∈ mem.frequentCategories
      · rw [if_pos hmem]; exact h
      · rw [if_neg hmem]
        simp [List.nodup_append, h, hmem]
    · rw [if_neg hb]; exact h
  · exact h

theorem memorySeq_nodup (rows : List ToolRow) :
    ∀ mem : MCPMemory, mem.frequentCategories.Nodup →
      ∀ m ∈ memorySeq mem rows, m.frequentCategories.Nodup := by
  induction rows with
  | nil => intro mem _ m hm; simp [memorySeq] at hm
  | cons row rest ih =>
    intro mem hmem m hm
    rw [memorySeq] at hm
    rcases List.mem_cons.mp hm with h | h
    · exact h ▸ updateMemory_nodup _ _ hmem
    · exact ih _ (updateMemory_nodup _ _ hmem) m h

theorem memorySeq_getLastD_nodup (rows : List ToolRow) :
    ∀ mem : MCPMemory, mem.frequentCategories.Nodup →
      ((memorySeq mem rows).getLastD mem).frequentCategories.Nodup := by
  induction rows with
  | nil => intro mem hmem; simpa [memorySeq] using hmem
  | cons row rest ih =>
    intro mem hmem
    rw [memorySeq, List.getLastD_cons]
    exact ih _ (updateMemory_nodup _ _ hmem)

theorem engine_ptc_savedMemories (registry : ToolRegistry) (userId : String)
    (calls : List PlannedToolCall) :
    ∀ st, savedMemories (AgentLoopEngine.processToolCalls registry userId calls st).2 =
      memorySeq st.memory
        (rowsOfTrace (AgentLoopEngine.processToolCalls registry userId calls st).2) := by
  induction calls with
  | nil => intro st; simp [AgentLoopEngine.processToolCalls, savedMemories_nil, rowsOfTrace_nil, memorySeq]
  | cons c rest ih =>
    intro st
    rw [AgentLoopEngine.processToolCalls]
    by_cases h : AgentLoopEngine.buildCallSignature (c.name?.getD "")
        (c.arguments?.getD (.obj [])) ∈ st.failedSignatures
    · simp [if_pos h, savedMemories_append, savedMemories_cons_save, savedMemories_cons_suppress,
        savedMemories_nil, rowsOfTrace_append, rowsOfTrace_cons, rowsOfTrace_nil, rowOfEvent,
        memorySeq, AgentLoopEngine.suppressedResult, ih]
    · simp [if_neg h, savedMemories_append, savedMemories_cons_save, savedMemories_cons_dispatch,
        savedMemories_nil, rowsOfTrace_append, rowsOfTrace_cons, rowsOfTrace_nil, rowOfEvent,
        memorySeq, ih]

theorem getLastOptD_cons {α : Type} (a d : α) (l : List α) :
    (a :: l).getLast?.getD d = l.getLast?.getD a := by
  cases l with
  | nil => rfl
  | cons b t =>
    rw [List.getLast?_cons_cons]
    rcases hlast : (b :: t).getLast? with _ | x
    · simp at hlast
    · rfl

theorem engine_ptc_memory (registry : ToolRegistry) (userId : String)
    (calls : List PlannedToolCall) :
    ∀ st, (AgentLoopEngine.processToolCalls registry userId calls st).1.memory =
      (memorySeq st.memory
        (rowsOfTrace (AgentLoopEngine.processToolCalls registry userId calls st).2)).getLastD
        st.memory := by
  induction calls with
  | nil => intro st; simp [AgentLoopEngine.processToolCalls, rowsOfTrace_nil, memorySeq]
  | cons c rest ih =>
    intro st
    rw [AgentLoopEngine.processToolCalls]
    by_cases h : AgentLoopEngine.buildCallSignature (c.name?.getD "")
        (c.arguments?.getD (.obj [])) ∈ st.failedSignatures
    · simp [if_pos h, rowsOfTrace_append, rowsOfTrace_cons, rowsOfTrace_nil, rowOfEvent,
        memorySeq, List.getLastD_cons, AgentLoopEngine.suppressedResult, getLastOptD_cons, ih]
    · simp [if_neg h, rowsOfTrace_append, rowsOfTrace_cons, rowsOfTrace_nil, rowOfEvent,
        memorySeq, List.getLastD_cons, getLastOptD_cons, ih]

theorem engine_ptc_noRedispatch (registry : ToolRegistry) (userId : String)
    (calls : List PlannedToolCall) :
    ∀ st bad, (∀ s, s ∈ bad → s ∈ st.failedSignatures) →
      noRedispatchAfterFailure
        (AgentLoopEngine.processToolCalls registry userId calls st).2 bad = true := by
  induction calls with
  | nil =>
    intro st bad _
    simp [AgentLoopEngine.processToolCalls, noRedispatch_nil]
  | cons c rest ih =>
    intro st bad hb
    rw [AgentLoopEngine.processToolCalls]
    by_cases h : AgentLoopEngine.buildCallSignature (c.name?.getD "")
        (c.arguments?.getD (.obj [])) ∈ st.failedSignatures
    · simp only [if_pos h, List.cons_append, List.nil_append, noRedispatch_cons_suppress,
        noRedispatch_cons_save]
      refine ih _ bad ?_
      simpa using hb
    · simp only [if_neg h, List.cons_append, List.nil_append, noRedispatch_cons_dispatch,
        noRedispatch_cons_save, Bool.and_eq_true, Bool.not_eq_true']
      constructor
      · have hnm : AgentLoopEngine.buildCallSignature (c.name?.getD "")
            (c.arguments?.getD (.obj [])) ∉ bad := fun hmem => h (hb _ hmem)
        simpa using hnm
      · by_cases hs : (registry.call (c.name?.getD "") userId
            (c.arguments?.getD (.obj []))).success = true
        · simp only [if_pos hs]
          refine ih _ bad ?_
          intro s hs2
          exact hb s hs2
        · simp only [if_neg hs]
          refine ih _ _ ?_
          intro s hs2
          rcases List.mem_cons.mp hs2 with h1 | h1
          · subst h1; simp
          · simp [List.mem_append, hb s h1]

/-! ## Per-step dispatch-loop lemmas (runtime) -/

/-- The two `_update_memory` copies are the same function. -/
theorem runtime_updateMemory_eq : AgentRuntime.updateMemory = AgentLoopEngine.updateMemory := rfl

theorem runtime_ptc_saves (registry : ToolRegistry) (userId : String)
    (calls : List PlannedToolCall) :
    ∀ st, countSaves (AgentRuntime.processToolCalls registry userId calls st).2 =
      calls.length := by
  induction calls with
  | nil => intro st; simp [AgentRuntime.processToolCalls, countSaves_nil]
  | cons c rest ih =>
    intro st
    rw [AgentRuntime.processToolCalls]
    simp [countSaves_cons, isSaveEvent, ih]

theorem runtime_ptc_planner (registry : ToolRegistry) (userId : String)
    (calls : List PlannedToolCall) :
    ∀ st, countPlannerCalls (AgentRuntime.processToolCalls registry userId calls st).2 = 0 := by
  induction calls with
  | nil => intro st; simp [AgentRuntime.processToolCalls, countPlannerCalls_nil]
  | cons c rest ih =>
    intro st
    rw [AgentRuntime.processToolCalls]
    simp [countPlannerCalls_cons, isPlannerEvent, ih]

theorem runtime_ptc_dispatches (registry : ToolRegistry) (userId : String)
    (calls : List PlannedToolCall) :
    ∀ st, countDispatches (AgentRuntime.processToolCalls registry userId calls st).2 =
      calls.length := by
  induction calls with
  | nil => intro st; simp [AgentRuntime.processToolCalls, countDispatches_nil]
  | cons c rest ih =>
    intro st
    rw [AgentRuntime.processToolCalls]
    simp [countDispatches_cons, isDispatchEvent, ih]

theorem runtime_ptc_suppressions (registry : ToolRegistry) (userId : String)
    (calls : List PlannedToolCall) :
    ∀ st, countSuppressions (AgentRuntime.processToolCalls registry userId calls st).2 = 0 := by
  induction calls with
  | nil => intro st; simp [AgentRuntime.processToolCalls, countSuppressions_nil]
  | cons c rest ih =>
    intro st
    rw [AgentRuntime.processToolCalls]
    simp [countSuppressions_cons, isSuppressEvent, ih]

theorem runtime_ptc_rows (registry : ToolRegistry) (userId : String)
    (calls : List PlannedToolCall) :
    ∀ st, (AgentRuntime.processToolCalls registry userId calls st).1.rows =
      st.rows ++ rowsOfTrace (AgentRuntime.processToolCalls registry userId calls st).2 := by
  induction calls with
  | nil => intro st; simp [AgentRuntime.processToolCalls, rowsOfTrace_nil]
  | cons c rest ih =>
    intro st
    rw [AgentRuntime.processToolCalls]
    simp [rowsOfTrace_cons, rowOfEvent, ih]

theorem runtime_ptc_savedMemories (registry : ToolRegistry) (userId : String)
    (calls : List PlannedToolCall) :
    ∀ st, savedMemories (AgentRuntime.processToolCalls registry userId calls st).2 =
      memorySeq st.memory
        (rowsOfTrace (AgentRuntime.processToolCalls registry userId calls st).2) := by
  induction calls with
  | nil => intro st; simp [AgentRuntime.processToolCalls, savedMemories_nil, rowsOfTrace_nil, memorySeq]
  | cons c rest ih =>
    intro st
    rw [AgentRuntime.processToolCalls]
    simp [savedMemories_cons_save, savedMemories_cons_dispatch, rowsOfTrace, rowsOfTrace_cons,
      rowOfEvent, List.filterMap_cons, memorySeq, runtime_updateMemory_eq, ih]

theorem runtime_ptc_memory (registry : ToolRegistry) (userId : String)
    (calls : List PlannedToolCall) :
    ∀ st, (AgentRuntime.processToolCalls registry userId calls st).1.memory =
      (memorySeq st.memory
        (rowsOfTrace (AgentRuntime.processToolCalls registry userId calls st).2)).getLastD
        st.memory := by
  induction calls with
  | nil => intro st; simp [AgentRuntime.processToolCalls, rowsOfTrace_nil, memorySeq]
  | cons c rest ih =>
    intro st
    rw [AgentRuntime.processToolCalls]
    simp [rowsOfTrace, rowsOfTrace_cons, rowOfEvent, List.filterMap_cons, memorySeq,
      List.getLastD_cons, getLastOptD_cons, runtime_updateMemory_eq, ih]

/-! ## Loop-level lemmas -/

theorem engine_runLoop_terminal (router : RouterModel) (registry : ToolRegistry)
    (userId : String) (tools : List MCPToolDefinition) (n : Nat) (usedTools : Bool)
    (st : AgentLoopEngine.LoopState)
    (h1 : (router.nextStep st.messages tools).toolCalls.isEmpty = true) :
    (AgentLoopEngine.runLoop router registry userId tools (n + 1) usedTools st).2 =
      [TraceEvent.plannerCall] := by
  rw [AgentLoopEngine.runLoop]
  simp only [h1, if_true]
  cases usedTools with
  | false => simp
  | true =>
    by_cases h2 : router.summarizeAfterTools st.messages ≠ ""
    · simp [h2]
    · simp [h2]

theorem engine_runLoop_step (router : RouterModel) (registry : ToolRegistry)
    (userId : String) (tools : List MCPToolDefinition) (n : Nat) (usedTools : Bool)
    (st : AgentLoopEngine.LoopState)
    (h1 : (router.nextStep st.messages tools).toolCalls.isEmpty = false) :
    AgentLoopEngine.runLoop router registry userId tools (n + 1) usedTools st =
      ((AgentLoopEngine.runLoop router registry userId tools n true
          (AgentLoopEngine.processToolCalls registry userId
            (router.nextStep st.messages tools).toolCalls
            { st with messages := st.messages ++
                [Message.assistant (pyStrip ((router.nextStep st.messages tools).content.getD ""))
                  ((router.nextStep st.messages tools).toolCalls.map (fun c =>
                    { id := c.id?.getD ("tool-" ++ c.name?.getD ""), name := c.name?.getD "",
                      arguments := c.rawArguments?.getD
                        (jsonDumps (c.arguments?.getD (.obj []))) }))] }).1).1,
        TraceEvent.plannerCall ::
          (AgentLoopEngine.processToolCalls registry userId
            (router.nextStep st.messages tools).toolCalls
            { st with messages := st.messages ++
                [Message.assistant (pyStrip ((router.nextStep st.messages tools).content.getD ""))
                  ((router.nextStep st.messages tools).toolCalls.map (fun c =>
                    { id := c.id?.getD ("tool-" ++ c.name?.getD ""), name := c.name?.getD "",
                      arguments := c.rawArguments?.getD
                        (jsonDumps (c.arguments?.getD (.obj []))) }))] }).2 ++
          (AgentLoopEngine.runLoop router registry userId tools n true
            (AgentLoopEngine.processToolCalls registry userId
              (router.nextStep st.messages tools).toolCalls
              { st with messages := st.messages ++
                  [Message.assistant
                    (pyStrip ((router.nextStep st.messages tools).content.getD ""))
                    ((router.nextStep st.messages tools).toolCalls.map (fun c =>
                      { id := c.id?.getD ("tool-" ++ c.name?.getD ""), name := c.name?.getD "",
                        arguments := c.rawArguments?.getD
                          (jsonDumps (c.arguments?.getD (.obj []))) }))] }).1).2) := by
  rw [AgentLoopEngine.runLoop]
  simp only [h1, Bool.false_eq_true, if_false]

theorem runtime_runLoop_terminal (router : RouterModel) (registry : ToolRegistry)
    (userId : String) (tools : List MCPToolDefinition) (n : Nat) (usedTools : Bool)
    (st : AgentRuntime.LoopState)
    (h1 : (router.nextStep st.messages tools).toolCalls.isEmpty = true) :
    (AgentRuntime.runLoop router registry userId tools (n + 1) usedTools st).2 =
      [TraceEvent.plannerCall] := by
  rw [AgentRuntime.runLoop]
  simp only [h1, if_true]
  cases usedTools with
  | false => simp
  | true =>
    by_cases h2 : router.summarizeAfterTools st.messages ≠ ""
    · simp [h2]
    · simp [h2]

theorem runtime_runLoop_step (router : RouterModel) (registry : ToolRegistry)
    (userId : String) (tools : List MCPToolDefinition) (n : Nat) (usedTools : Bool)
    (st : AgentRuntime.LoopState)
    (h1 : (router.nextStep st.messages tools).toolCalls.isEmpty = false) :
    AgentRuntime.runLoop router registry userId tools (n + 1) usedTools st =
      ((AgentRuntime.runLoop router registry userId tools n true
          (AgentRuntime.processToolCalls registry userId
            (router.nextStep st.messages tools).toolCalls
            { st with messages := st.messages ++
                [Message.assistant (pyStrip ((router.nextStep st.messages tools).content.getD ""))
                  ((router.nextStep st.messages tools).toolCalls.map (fun c =>
                    { id := c.id?.getD ("tool-" ++ c.name?.getD ""), name := c.name?.getD "",
                      arguments := c.rawArguments?.getD
                        (jsonDumps (c.arguments?.getD (.obj []))) }))] }).1).1,
        TraceEvent.plannerCall ::
          (AgentRuntime.processToolCalls registry userId
            (router.nextStep st.messages tools).toolCalls
            { st with messages := st.messages ++
                [Message.assistant (pyStrip ((router.nextStep st.messages tools).content.getD ""))
                  ((router.nextStep st.messages tools).toolCalls.map (fun c =>
                    { id := c.id?.getD ("tool-" ++ c.name?.getD ""), name := c.name?.getD "",
                      arguments := c.rawArguments?.getD
                        (jsonDumps (c.arguments?.getD (.obj []))) }))] }).2 ++
          (AgentRuntime.runLoop router registry userId tools n true
            (AgentRuntime.processToolCalls registry userId
              (router.nextStep st.messages tools).toolCalls
              { st with messages := st.messages ++
                  [Message.assistant
                    (pyStrip ((router.nextStep st.messages tools).content.getD ""))
                    ((router.nextStep st.messages tools).toolCalls.map (fun c =>
                      { id := c.id?.getD ("tool-" ++ c.name?.getD ""), name := c.name?.getD "",
                        arguments := c.rawArguments?.getD
                          (jsonDumps (c.arguments?.getD (.obj []))) }))] }).1).2) := by
  rw [AgentRuntime.runLoop]
  simp only [h1, Bool.false_eq_true, if_false]

theorem engine_runLoop_planner (router : RouterModel) (registry : ToolRegistry)
    (userId : String) (tools : List MCPToolDefinition)
    (hAlways : ∀ messages, (router.nextStep messages tools).toolCalls ≠ []) :
    ∀ fuel usedTools st,
      countPlannerCalls
        (AgentLoopEngine.runLoop router registry userId tools fuel usedTools st).2 = fuel := by
  intro fuel
  induction fuel with
  | zero =>
    intro u st
    rw [AgentLoopEngine.runLoop]
    split <;> simp [countPlannerCalls_nil]
  | succ n ih =>
    intro u st
    have h1 : (router.nextStep st.messages tools).toolCalls.isEmpty = false := by
      rcases hc : (router.nextStep st.messages tools).toolCalls with _ | ⟨c, cs⟩
      · exact absurd hc (hAlways st.messages)
      · rfl
    rw [engine_runLoop_step router registry userId tools n u st h1]
    simp [countPlannerCalls_cons, countPlannerCalls_append, isPlannerEvent,
      engine_ptc_planner, ih]

theorem engine_runLoop_reply (router : RouterModel) (registry : ToolRegistry)
    (userId : String) (tools : List MCPToolDefinition)
    (hAlways : ∀ messages, (router.nextStep messages tools).toolCalls ≠ []) :
    ∀ fuel usedTools st,
      (AgentLoopEngine.runLoop router registry userId tools fuel usedTools st).1 =
        AgentLoopEngine.exhaustReply (st.rows ++
          rowsOfTrace
            (AgentLoopEngine.runLoop router registry userId tools fuel usedTools st).2) := by
  intro fuel
  induction fuel with
  | zero =>
    intro u st
    rw [AgentLoopEngine.runLoop]
    by_cases he : st.rows.isEmpty
    · simp [he, AgentLoopEngine.exhaustReply, rowsOfTrace_nil]
    · simp [he, AgentLoopEngine.exhaustReply, rowsOfTrace_nil]
  | succ n ih =>
    intro u st
    have h1 : (router.nextStep st.messages tools).toolCalls.isEmpty = false := by
      rcases hc : (router.nextStep st.messages tools).toolCalls with _ | ⟨c, cs⟩
      · exact absurd hc (hAlways st.messages)
      · rfl
    rw [engine_runLoop_step router registry userId tools n u st h1]
    simp [ih, engine_ptc_rows, rowsOfTrace_cons, rowsOfTrace_append, rowOfEvent,
      List.append_assoc]

theorem engine_runLoop_saves_eq (router : RouterModel) (registry : ToolRegistry)
    (userId : String) (tools : List MCPToolDefinition) :
    ∀ fuel usedTools st,
      countSaves (AgentLoopEngine.runLoop router registry userId tools fuel usedTools st).2 =
        countDispatches
            (AgentLoopEngine.runLoop router registry userId tools fuel usedTools st).2 +
          countSuppressions
            (AgentLoopEngine.runLoop router registry userId tools fuel usedTools st).2 := by
  intro fuel
  induction fuel with
  | zero =>
    intro u st
    rw [AgentLoopEngine.runLoop]
    split <;> simp [countSaves_nil, countDispatches_nil, countSuppressions_nil]
  | succ n ih =>
    intro u st
    rcases Bool.eq_false_or_eq_true
        ((router.nextStep st.messages tools).toolCalls.isEmpty) with h1 | h1
    · rw [show countSaves (AgentLoopEngine.runLoop router registry userId tools (n + 1) u st).2
          = countSaves [TraceEvent.plannerCall] from by
            rw [engine_runLoop_terminal router registry userId tools n u st h1],
        show countDispatches
            (AgentLoopEngine.runLoop router registry userId tools (n + 1) u st).2
          = countDispatches [TraceEvent.plannerCall] from by
            rw [engine_runLoop_terminal router registry userId tools n u st h1],
        show countSuppressions
            (AgentLoopEngine.runLoop router registry userId tools (n + 1) u st).2
          = countSuppressions [TraceEvent.plannerCall] from by
            rw [engine_runLoop_terminal router registry userId tools n u st h1]]
      simp [countSaves_cons, countDispatches_cons, countSuppressions_cons, countSaves_nil,
        countDispatches_nil, countSuppressions_nil, isSaveEvent, isDispatchEvent, isSuppressEvent]
    · rw [engine_runLoop_step router registry userId tools n u st h1]
      simp [countSaves_cons, countSaves_append, countDispatches_cons,
        countDispatches_append, countSuppressions_cons, countSuppressions_append,
        isSaveEvent, isDispatchEvent, isSuppressEvent, engine_ptc_saves_eq_ds, ih]
      omega

theorem engine_runLoop_savedNodup (router : RouterModel) (registry : ToolRegistry)
    (userId : String) (tools : List MCPToolDefinition) :
    ∀ fuel usedTools st, st.memory.frequentCategories.Nodup →
      ∀ m ∈ savedMemories
          (AgentLoopEngine.runLoop router registry userId tools fuel usedTools st).2,
        m.frequentCategories.Nodup := by
  intro fuel
  induction fuel with
  | zero =>
    intro u st _ m hm
    rw [AgentLoopEngine.runLoop] at hm
    rcases Bool.eq_false_or_eq_true st.rows.isEmpty with he | he <;>
      simp [he, savedMemories_nil] at hm
  | succ n ih =>
    intro u st hnd m hm
    rcases Bool.eq_false_or_eq_true
        ((router.nextStep st.messages tools).toolCalls.isEmpty) with h1 | h1
    · rw [engine_runLoop_terminal router registry userId tools n u st h1] at hm
      simp [savedMemories_cons_planner, savedMemories_nil] at hm
    · rw [engine_runLoop_step router registry userId tools n u st h1] at hm
      simp only [savedMemories_cons_planner, savedMemories_append, List.mem_append] at hm
      rcases hm with hm | hm
      · rw [engine_ptc_savedMemories] at hm
        exact memorySeq_nodup _ _ hnd m hm
      · refine ih true _ ?_ m hm
        rw [engine_ptc_memory]
        exact memorySeq_getLastD_nodup _ _ hnd

theorem engine_runLoop_noRedispatch (router : RouterModel) (registry : ToolRegistry)
    (userId : String) (tools : List MCPToolDefinition) :
    ∀ fuel usedTools st bad, (∀ s, s ∈ bad → s ∈ st.failedSignatures) →
      noRedispatchAfterFailure
        (AgentLoopEngine.runLoop router registry userId tools fuel usedTools st).2 bad
        = true := by
  intro fuel
  induction fuel with
  | zero =>
    intro u st bad _
    rw [AgentLoopEngine.runLoop]
    split <;> simp [noRedispatch_nil]
  | succ n ih =>
    intro u st bad hb
    rcases Bool.eq_false_or_eq_true
        ((router.nextStep st.messages tools).toolCalls.isEmpty) with h1 | h1
    · rw [engine_runLoop_terminal router registry userId tools n u st h1]
      simp [noRedispatch_cons_planner, noRedispatch_nil]
    · rw [engine_runLoop_step router registry userId tools n u st h1]
      simp only [noRedispatch_cons_planner, noRedispatch_append, Bool.and_eq_true]
      constructor
      · refine engine_ptc_noRedispatch registry userId _ _ bad ?_
        simpa using hb
      · refine ih true _ _ ?_
        intro s hs
        rw [failedSigsAfter_eq_failsOf] at hs
        rw [engine_ptc_failedSignatures]
        simp only [List.mem_append, List.mem_reverse] at hs ⊢
        rcases hs with hs | hs
        · right; exact hs
        · left; simpa using hb s hs

theorem runtime_runLoop_planner (router : RouterModel) (registry : ToolRegistry)
    (userId : String) (tools : List MCPToolDefinition)
    (hAlways : ∀ messages, (router.nextStep messages tools).toolCalls ≠ []) :
    ∀ fuel usedTools st,
      countPlannerCalls
        (AgentRuntime.runLoop router registry userId tools fuel usedTools st).2 = fuel := by
  intro fuel
  induction fuel with
  | zero =>
    intro u st
    rw [AgentRuntime.runLoop]
    split <;> simp [countPlannerCalls_nil]
  | succ n ih =>
    intro u st
    have h1 : (router.nextStep st.messages tools).toolCalls.isEmpty = false := by
      rcases hc : (router.nextStep st.messages tools).toolCalls with _ | ⟨c, cs⟩
      · exact absurd hc (hAlways st.messages)
      · rfl
    rw [runtime_runLoop_step router registry userId tools n u st h1]
    simp [countPlannerCalls_cons, countPlannerCalls_append, isPlannerEvent,
      runtime_ptc_planner, ih]

theorem runtime_runLoop_reply (router : RouterModel) (registry : ToolRegistry)
    (userId : String) (tools : List MCPToolDefinition)
    (hAlways : ∀ messages, (router.nextStep messages tools).toolCalls ≠ []) :
    ∀ fuel usedTools st,
      (AgentRuntime.runLoop router registry userId tools fuel usedTools st).1 =
        AgentRuntime.exhaustReply (st.rows ++
          rowsOfTrace
            (AgentRuntime.runLoop router registry userId tools fuel usedTools st).2) := by
  intro fuel
  induction fuel with
  | zero =>
    intro u st
    rw [AgentRuntime.runLoop]
    by_cases he : st.rows.isEmpty
    · simp [he, AgentRuntime.exhaustReply, rowsOfTrace_nil]
    · simp [he, AgentRuntime.exhaustReply, rowsOfTrace_nil]
  | succ n ih =>
    intro u st
    have h1 : (router.nextStep st.messages tools).toolCalls.isEmpty = false := by
      rcases hc : (router.nextStep st.messages tools).toolCalls with _ | ⟨c, cs⟩
      · exact absurd hc (hAlways st.messages)
      · rfl
    rw [runtime_runLoop_step router registry userId tools n u st h1]
    simp [ih, runtime_ptc_rows, rowsOfTrace_cons, rowsOfTrace_append, rowOfEvent,
      List.append_assoc]

theorem runtime_runLoop_saves_eq (router : RouterModel) (registry : ToolRegistry)
    (userId : String) (tools : List MCPToolDefinition) :
    ∀ fuel usedTools st,
      countSaves (AgentRuntime.runLoop router registry userId tools fuel usedTools st).2 =
        countDispatches
          (AgentRuntime.runLoop router registry userId tools fuel usedTools st).2 := by
  intro fuel
  induction fuel with
  | zero =>
    intro u st
    rw [AgentRuntime.runLoop]
    split <;> simp [countSaves_nil, countDispatches_nil]
  | succ n ih =>
    intro u st
    rcases Bool.eq_false_or_eq_true
        ((router.nextStep st.messages tools).toolCalls.isEmpty) with h1 | h1
    · rw [show countSaves (AgentRuntime.runLoop router registry userId tools (n + 1) u st).2
          = countSaves [TraceEvent.plannerCall] from by
            rw [runtime_runLoop_terminal router registry userId tools n u st h1],
        show countDispatches (AgentRuntime.runLoop router registry userId tools (n + 1) u st).2
          = countDispatches [TraceEvent.plannerCall] from by
            rw [runtime_runLoop_terminal router registry userId tools n u st h1]]
      simp [countSaves_cons, countDispatches_cons, countSaves_nil, countDispatches_nil,
        isSaveEvent, isDispatchEvent]
    · rw [runtime_runLoop_step router registry userId tools n u st h1]
      simp [countSaves_cons, countSaves_append, countDispatches_cons, countDispatches_append,
        isSaveEvent, isDispatchEvent, runtime_ptc_saves, runtime_ptc_dispatches, ih]

theorem runtime_runLoop_suppressions (router : RouterModel) (registry : ToolRegistry)
    (userId : String) (tools : List MCPToolDefinition) :
    ∀ fuel usedTools st,
      countSuppressions
        (AgentRuntime.runLoop router registry userId tools fuel usedTools st).2 = 0 := by
  intro fuel
  induction fuel with
  | zero =>
    intro u st
    rw [AgentRuntime.runLoop]
    split <;> simp [countSuppressions_nil]
  | succ n ih =>
    intro u st
    rcases Bool.eq_false_or_eq_true
        ((router.nextStep st.messages tools).toolCalls.isEmpty) with h1 | h1
    · rw [show countSuppressions
            (AgentRuntime.runLoop router registry userId tools (n + 1) u st).2
          = countSuppressions [TraceEvent.plannerCall] from by
            rw [runtime_runLoop_terminal router registry userId tools n u st h1]]
      simp [countSuppressions_cons, countSuppressions_nil, isSuppressEvent]
    · rw [runtime_runLoop_step router registry userId tools n u st h1]
      simp [countSuppressions_cons, countSuppressions_append, isSuppressEvent,
        runtime_ptc_suppressions, ih]

theorem runtime_runLoop_savedNodup (router : RouterModel) (registry : ToolRegistry)
    (userId : String) (tools : List MCPToolDefinition) :
    ∀ fuel usedTools st, st.memory.frequentCategories.Nodup →
      ∀ m ∈ savedMemories
          (AgentRuntime.runLoop router registry userId tools fuel usedTools st).2,
        m.frequentCategories.Nodup := by
  intro fuel
  induction fuel with
  | zero =>
    intro u st _ m hm
    rw [AgentRuntime.runLoop] at hm
    rcases Bool.eq_false_or_eq_true st.rows.isEmpty with he | he <;>
      simp [he, savedMemories_nil] at hm
  | succ n ih =>
    intro u st hnd m hm
    rcases Bool.eq_false_or_eq_true
        ((router.nextStep st.messages tools).toolCalls.isEmpty) with h1 | h1
    · rw [runtime_runLoop_terminal router registry userId tools n u st h1] at hm
      simp [savedMemories_cons_planner, savedMemories_nil] at hm
    · rw [runtime_runLoop_step router registry userId tools n u st h1] at hm
      simp only [savedMemories_cons_planner, savedMemories_append, List.mem_append] at hm
      rcases hm with hm | hm
      · rw [runtime_ptc_savedMemories] at hm
        exact memorySeq_nodup _ _ hnd m hm
      · refine ih true _ ?_ m hm
        rw [runtime_ptc_memory]
        exact memorySeq_getLastD_nodup _ _ hnd

/-! ## Claim C4 — step bound and exhaustion behaviour -/

/-- Claim C4: for any planner that always returns at least one tool call,
both loops invoke the planner exactly `agent_max_steps` times (default 6)
and return normally: the deterministic templated summary over the collected
results when any were collected, and the fixed "too many steps" notice when
none were. -/
theorem c4_step_bound (router : RouterModel) (registry : ToolRegistry)
    (settings : Settings) (userId text : String) (context : MCPContext)
    (hAlways : ∀ messages, (router.nextStep messages registry.listTools).toolCalls ≠ []) :
    countPlannerCalls (AgentLoopEngine.run router registry settings userId text context).2 =
      settings.agentMaxSteps ∧
    (AgentLoopEngine.run router registry settings userId text context).1 =
      AgentLoopEngine.exhaustReply
        (rowsOfTrace (AgentLoopEngine.run router registry settings userId text context).2) ∧
    countPlannerCalls (AgentRuntime.run router registry settings userId text context).2 =
      settings.agentMaxSteps ∧
    (AgentRuntime.run router registry settings userId text context).1 =
      AgentRuntime.exhaustReply
        (rowsOfTrace (AgentRuntime.run router registry settings userId text context).2) ∧
    ({} : Settings).agentMaxSteps = 6 := by
  refine ⟨?_, ?_, ?_, ?_, rfl⟩
  · rw [AgentLoopEngine.run]
    exact engine_runLoop_planner router registry userId registry.listTools hAlways _ _ _
  · rw [AgentLoopEngine.run]
    simpa using engine_runLoop_reply router registry userId registry.listTools hAlways
      settings.agentMaxSteps false _
  · rw [AgentRuntime.run]
    exact runtime_runLoop_planner router registry userId registry.listTools hAlways _ _ _
  · rw [AgentRuntime.run]
    simpa using runtime_runLoop_reply router registry userId registry.listTools hAlways
      settings.agentMaxSteps false _

/-- Witness for C4: with the default six-step settings and an always-calling
planner, both loops invoke the planner exactly six times. -/
theorem c4_step_bound_witness :
    countPlannerCalls (AgentLoopEngine.run routerAlways emptyRegistry {} "u" "t" ctxU).2 = 6 ∧
    countPlannerCalls (AgentRuntime.run routerAlways emptyRegistry {} "u" "t" ctxU).2 = 6 := by
  have h := c4_step_bound routerAlways emptyRegistry {} "u" "t" ctxU
    (fun _ => List.cons_ne_nil _ _)
  exact ⟨h.1, h.2.2.1⟩

/-! ## Claim C10 — memory persistence -/

/-- Claim C10: after every processed tool call — dispatched or suppressed,
successful or failed — the loop persists the memory exactly once (the number
of persists equals the number of dispatches plus suppressions; for the
runtime loop, which never suppresses, exactly the number of dispatches),
the persisted `frequent_categories` never acquires duplicates when the run
started without them, and `_update_memory` appends a category exactly when
the result succeeded, carries a truthy `category` field, and that category
is not already present (both implementations being the same function). -/
theorem c10_memory_persistence :
    (∀ (router : RouterModel) (registry : ToolRegistry) (settings : Settings)
        (userId text : String) (context : MCPContext),
      countSaves (AgentLoopEngine.run router registry settings userId text context).2 =
        countDispatches (AgentLoopEngine.run router registry settings userId text context).2 +
          countSuppressions
            (AgentLoopEngine.run router registry settings userId text context).2) ∧
    (∀ (router : RouterModel) (registry : ToolRegistry) (settings : Settings)
        (userId text : String) (context : MCPContext),
      context.memory.frequentCategories.Nodup →
        ∀ m ∈ savedMemories (AgentLoopEngine.run router registry settings userId text context).2,
          m.frequentCategories.Nodup) ∧
    (∀ (router : RouterModel) (registry : ToolRegistry) (settings : Settings)
        (userId text : String) (context : MCPContext),
      countSaves (AgentRuntime.run router registry settings userId text context).2 =
        countDispatches (AgentRuntime.run router registry settings userId text context).2 ∧
      countSuppressions (AgentRuntime.run router registry settings userId text context).2 = 0) ∧
    (∀ (router : RouterModel) (registry : ToolRegistry) (settings : Settings)
        (userId text : String) (context : MCPContext),
      context.memory.frequentCategories.Nodup →
        ∀ m ∈ savedMemories (AgentRuntime.run router registry settings userId text context).2,
          m.frequentCategories.Nodup) ∧
    (∀ (mem : MCPMemory) (result : MCPToolResult) (cat : JValue),
      jLookup result.data "category" = some cat → result.success = true →
        cat.isTruthy = true → cat ∉ mem.frequentCategories →
        (AgentLoopEngine.updateMemory mem result).frequentCategories =
          mem.frequentCategories ++ [cat]) ∧
    (∀ (mem : MCPMemory) (result : MCPToolResult),
      (AgentLoopEngine.updateMemory mem result).frequentCategories =
          mem.frequentCategories ∨
        ∃ cat, jLookup result.data "category" = some cat ∧ result.success = true ∧
          cat.isTruthy = true ∧ cat ∉ mem.frequentCategories ∧
          (AgentLoopEngine.updateMemory mem result).frequentCategories =
            mem.frequentCategories ++ [cat]) ∧
    AgentRuntime.updateMemory = AgentLoopEngine.updateMemory := by
  refine ⟨?_, ?_, ?_, ?_, ?_, ?_, rfl⟩
  · intro router registry settings userId text context
    rw [AgentLoopEngine.run]
    exact engine_runLoop_saves_eq router registry userId registry.listTools _ _ _
  · intro router registry settings userId text context hnd
    rw [AgentLoopEngine.run]
    exact engine_runLoop_savedNodup router registry userId registry.listTools _ _ _ hnd
  · intro router registry settings userId text context
    rw [AgentRuntime.run]
    exact ⟨runtime_runLoop_saves_eq router registry userId registry.listTools _ _ _,
      runtime_runLoop_suppressions router registry userId registry.listTools _ _ _⟩
  · intro router registry settings userId text context hnd
    rw [AgentRuntime.run]
    exact runtime_runLoop_savedNodup router registry userId registry.listTools _ _ _ hnd
  · intro mem result cat hcat hsucc htruthy hnot
    rw [AgentLoopEngine.updateMemory]
    simp [hcat, hsucc, htruthy, hnot]
  · intro mem result
    rw [AgentLoopEngine.updateMemory]
    split
    · rename_i cat heq
      by_cases hc : (result.success && cat.isTruthy) = true
      · rw [if_pos hc]
        by_cases hmem : cat ∈ mem.frequentCategories
        · rw [if_pos hmem]; left; rfl
        · rw [if_neg hmem]
          right
          exact ⟨cat, heq, (Bool.and_eq_true _ _).mp hc |>.1,
            (Bool.and_eq_true _ _).mp hc |>.2, hmem, rfl⟩
      · rw [if_neg hc]; left; rfl
    · left; rfl

/-- Witness for C10: `_update_memory` on an empty memory and a successful
result with category `餐饮` records exactly that category, and every memory
persisted during the concrete image-producing run has duplicate-free
categories. -/
theorem c10_memory_persistence_witness :
    (AgentLoopEngine.updateMemory {}
        { success := true, data := [("category", JValue.str "餐饮")] }).frequentCategories =
      [JValue.str "餐饮"] ∧
    ∀ m ∈ savedMemories (AgentLoopEngine.run routerImages imageRegistry {} "u" "txt" ctxU).2,
      m.frequentCategories.Nodup := by
  constructor
  · exact (c10_memory_persistence.2.2.2.2.1 {}
      { success := true, data := [("category", JValue.str "餐饮")] }
      (JValue.str "餐饮") rfl rfl (by decide) (by decide)).trans (by decide)
  · exact c10_memory_persistence.2.1 routerImages imageRegistry {} "u" "txt" ctxU (by decide)

/-! ## Claim C1 — suppression of repeated failing calls -/

/-- Counterexample to C1 as stated: the loop actually wired by
`app/bootstrap.py` is `AgentRuntime._run_agent_loop`, and it re-dispatches a
call whose signature already failed — with a planner fixated on the failing
`t({"a": 1})` and a two-step budget, the run's trace violates the
no-redispatch scan, and no synthetic suppression result is ever recorded. -/
theorem c1_counterexample :
    noRedispatchAfterFailure
      (AgentRuntime.run routerRepeat registryFail { agentMaxSteps := 2 } "u" "t" ctxU).2 []
      = false ∧
    countSuppressions
      (AgentRuntime.run routerRepeat registryFail { agentMaxSteps := 2 } "u" "t" ctxU).2 = 0 ∧
    countDispatches
      (AgentRuntime.run routerRepeat registryFail { agentMaxSteps := 2 } "u" "t" ctxU).2 = 2 := by
  refine ⟨by decide, by decide, by decide⟩

/-- Claim C1 (amended): within a single `AgentLoopEngine.run`, a call whose
signature equals a previously failed dispatch is never dispatched again —
the scan `noRedispatchAfterFailure` accepts every engine trace — and in the
concrete repeat scenario the engine dispatches `t({"a": 1})` once, records
the synthetic suppression result for its repetition, and still dispatches
the same tool with different arguments `t({"a": 2})` normally. -/
theorem c1_failed_signature_suppression :
    (∀ (router : RouterModel) (registry : ToolRegistry) (settings : Settings)
        (userId text : String) (context : MCPContext),
      noRedispatchAfterFailure
        (AgentLoopEngine.run router registry settings userId text context).2 [] = true) ∧
    countDispatches
      (AgentLoopEngine.run routerTwo registryFail { agentMaxSteps := 3 } "u" "t" ctxU).2 = 2 ∧
    countSuppressions
      (AgentLoopEngine.run routerTwo registryFail { agentMaxSteps := 3 } "u" "t" ctxU).2 = 1 ∧
    rowsOfTrace
      (AgentLoopEngine.run routerTwo registryFail { agentMaxSteps := 3 } "u" "t" ctxU).2 =
      [{ toolName := "t", success := false, message := "no", data := [] },
       { toolName := "t", success := false, message := "检测到重复失败调用，已停止重复重试。", data := [] },
       { toolName := "t", success := false, message := "no", data := [] }] := by
  refine ⟨?_, by decide, by decide, by decide⟩
  intro router registry settings userId text context
  rw [AgentLoopEngine.run]
  exact engine_runLoop_noRedispatch router registry userId registry.listTools _ _ _ []
    (fun s hs => absurd hs (List.not_mem_nil s))

/-! ## Claim C5 — fallback summary priority order -/

/-- Counterexample to C5 as stated: the two `_fallback_tool_summary` copies
disagree on a successful `deep_web_search` result.  The claim's priority
order places deep search before web search, which only the engine's copy
implements; `AgentRuntime._fallback_tool_summary` (the copy the wired
runtime uses) has no deep-search branch and falls through to the generic
acknowledgement instead of rendering the deep-search template. -/
theorem c5_counterexample :
    AgentRuntime.fallbackToolSummary
        [{ toolName := "deep_web_search", success := true, message := "",
           data := [("sources", .arr [.obj [("title", .str "T"), ("url", .str "U")]])] }] =
      "✅ 处理完成。" ∧
    AgentLoopEngine.fallbackToolSummary
        [{ toolName := "deep_web_search", success := true, message := "",
           data := [("sources", .arr [.obj [("title", .str "T"), ("url", .str "U")]])] }] =
      "🧠 深度搜索完成（来源 1 条）\n1. T\nU" := by
  exact ⟨by decide, by decide⟩

/-- Claim C5 (amended): the deterministic fallback summary selects the most
recent successful result per tool in a fixed priority order and renders its
template; `AgentLoopEngine`'s copy implements the full order batch record →
single record → visualization → analysis → deep search → web search →
screenshot → generic acknowledgement, while `AgentRuntime`'s copy omits the
deep-search branch and otherwise follows the same order.  An empty result
list renders the completion acknowledgement, a non-empty list with no
success renders the fixed failure notice, and the batch template over
`count=3, total=45.5` contains `3` and `45.5`. -/
theorem c5_fallback_summary_priority :
    (AgentLoopEngine.fallbackToolSummary [] = "✅ 已完成处理。" ∧
      AgentRuntime.fallbackToolSummary [] = "✅ 已完成处理。") ∧
    (∀ rs : List ToolRow, rs.isEmpty = false →
      rs.filter (fun row => row.success) = [] →
      AgentLoopEngine.fallbackToolSummary rs = "❌ 工具执行失败，请稍后重试。" ∧
      AgentRuntime.fallbackToolSummary rs = "❌ 工具执行失败，请稍后重试。") ∧
    (∀ (rs : List ToolRow) (last : ToolRow), rs.isEmpty = false →
      (rs.filter (fun row => row.success)).isEmpty = false →
      ((rs.filter (fun row => row.success)).filter
        (fun row => row.toolName == "record_expenses_batch")).getLast? = some last →
      AgentLoopEngine.fallbackToolSummary rs = batchSummaryText last.data ∧
      AgentRuntime.fallbackToolSummary rs = batchSummaryText last.data) ∧
    (∀ (rs : List ToolRow) (last : ToolRow), rs.isEmpty = false →
      (rs.filter (fun row => row.success)).isEmpty = false →
      ((rs.filter (fun row => row.success)).filter
        (fun row => row.toolName == "record_expenses_batch")).getLast? = none →
      ((rs.filter (fun row => row.success)).filter
        (fun row => row.toolName == "record_expense")).getLast? = some last →
      AgentLoopEngine.fallbackToolSummary rs = singleSummaryText last.data ∧
      AgentRuntime.fallbackToolSummary rs = singleSummaryText last.data) ∧
    (∀ (rs : List ToolRow) (last : ToolRow), rs.isEmpty = false →
      (rs.filter (fun row => row.success)).isEmpty = false →
      ((rs.filter (fun row => row.success)).filter
        (fun row => row.toolName == "record_expenses_batch")).getLast? = none →
      ((rs.filter (fun row => row.success)).filter
        (fun row => row.toolName == "record_expense")).getLast? = none →
      ((rs.filter (fun row => row.success)).filter
        (fun row => row.toolName == "visualize_expenses")).getLast? = some last →
      AgentLoopEngine.fallbackToolSummary rs = vizSummaryText last.data ∧
      AgentRuntime.fallbackToolSummary rs = vizSummaryText last.data) ∧
    (∀ (rs : List ToolRow) (last : ToolRow), rs.isEmpty = false →
      (rs.filter (fun row => row.success)).isEmpty = false →
      ((rs.filter (fun row => row.success)).filter
        (fun row => row.toolName == "record_expenses_batch")).getLast? = none →
      ((rs.filter (fun row => row.success)).filter
        (fun row => row.toolName == "record_expense")).getLast? = none →
      ((rs.filter (fun row => row.success)).filter
        (fun row => row.toolName == "visualize_expenses")).getLast? = none →
      ((rs.filter (fun row => row.success)).filter
        (fun row => row.toolName == "analyze_expenses")).getLast? = some last →
      AgentLoopEngine.fallbackToolSummary rs = analyzeSummaryText last.data ∧
      AgentRuntime.fallbackToolSummary rs = analyzeSummaryText last.data) ∧
    (∀ (rs : List ToolRow) (last : ToolRow), rs.isEmpty = false →
      (rs.filter (fun row => row.success)).isEmpty = false →
      ((rs.filter (fun row => row.success)).filter
        (fun row => row.toolName == "record_expenses_batch")).getLast? = none →
      ((rs.filter (fun row => row.success)).filter
        (fun row => row.toolName == "record_expense")).getLast? = none →
      ((rs.filter (fun row => row.success)).filter
        (fun row => row.toolName == "visualize_expenses")).getLast? = none →
      ((rs.filter (fun row => row.success)).filter
        (fun row => row.toolName == "analyze_expenses")).getLast? = none →
      ((rs.filter (fun row => row.success)).filter
        (fun row => row.toolName == "deep_web_search")).getLast? = some last →
      AgentLoopEngine.fallbackToolSummary rs = deepSearchSummaryText last.data) ∧
    (∀ (rs : List ToolRow) (last : ToolRow), rs.isEmpty = false →
      (rs.filter (fun row => row.success)).isEmpty = false →
      ((rs.filter (fun row => row.success)).filter
        (fun row => row.toolName == "record_expenses_batch")).getLast? = none →
      ((rs.filter (fun row => row.success)).filter
        (fun row => row.toolName == "record_expense")).getLast? = none →
      ((rs.filter (fun row => row.success)).filter
        (fun row => row.toolName == "visualize_expenses")).getLast? = none →
      ((rs.filter (fun row => row.success)).filter
        (fun row => row.toolName == "analyze_expenses")).getLast? = none →
      ((rs.filter (fun row => row.success)).filter
        (fun row => row.toolName == "deep_web_search")).getLast? = none →
      ((rs.filter (fun row => row.success)).filter
        (fun row => row.toolName == "google_search")).getLast? = some last →
      AgentLoopEngine.fallbackToolSummary rs = googleSummaryText last.data) ∧
    (∀ (rs : List ToolRow) (last : ToolRow), rs.isEmpty = false →
      (rs.filter (fun row => row.success)).isEmpty = false →
      ((rs.filter (fun row => row.success)).filter
        (fun row => row.toolName == "record_expenses_batch")).getLast? = none →
      ((rs.filter (fun row => row.success)).filter
        (fun row => row.toolName == "record_expense")).getLast? = none →
      ((rs.filter (fun row => row.success)).filter
        (fun row => row.toolName == "visualize_expenses")).getLast? = none →
      ((rs.filter (fun row => row.success)).filter
        (fun row => row.toolName == "analyze_expenses")).getLast? = none →
      ((rs.filter (fun row => row.success)).filter
        (fun row => row.toolName == "google_search")).getLast? = some last →
      AgentRuntime.fallbackToolSummary rs = googleSummaryText last.data) ∧
    (∀ (rs : List ToolRow) (last : ToolRow), rs.isEmpty = false →
      (rs.filter (fun row => row.success)).isEmpty = false →
      ((rs.filter (fun row => row.success)).filter
        (fun row => row.toolName == "record_expenses_batch")).getLast? = none →
      ((rs.filter (fun row => row.success)).filter
        (fun row => row.toolName == "record_expense")).getLast? = none →
      ((rs.filter (fun row => row.success)).filter
        (fun row => row.toolName == "visualize_expenses")).getLast? = none →
      ((rs.filter (fun row => row.success)).filter
        (fun row => row.toolName == "analyze_expenses")).getLast? = none →
      ((rs.filter (fun row => row.success)).filter
        (fun row => row.toolName == "deep_web_search")).getLast? = none →
      ((rs.filter (fun row => row.success)).filter
        (fun row => row.toolName == "google_search")).getLast? = none →
      ((rs.filter (fun row => row.success)).filter
        (fun row => row.toolName == "capture_website_screenshot")).getLast? = some last →
      AgentLoopEngine.fallbackToolSummary rs = screenshotSummaryText last.data) ∧
    (∀ (rs : List ToolRow) (last : ToolRow), rs.isEmpty = false →
      (rs.filter (fun row => row.success)).isEmpty = false →
      ((rs.filter (fun row => row.success)).filter
        (fun row => row.toolName == "record_expenses_batch")).getLast? = none →
      ((rs.filter (fun row => row.success)).filter
        (fun row => row.toolName == "record_expense")).getLast? = none →
      ((rs.filter (fun row => row.success)).filter
        (fun row => row.toolName == "visualize_expenses")).getLast? = none →
      ((rs.filter (fun row => row.success)).filter
        (fun row => row.toolName == "analyze_expenses")).getLast? = none →
      ((rs.filter (fun row => row.success)).filter
        (fun row => row.toolName == "google_search")).getLast? = none →
      ((rs.filter (fun row => row.success)).filter
        (fun row => row.toolName == "capture_website_screenshot")).getLast? = some last →
      AgentRuntime.fallbackToolSummary rs = screenshotSummaryText last.data) ∧
    (LLMRouter.containsSub
        (AgentLoopEngine.fallbackToolSummary
          [{ toolName := "record_expenses_batch", success := true, message := "",
             data := [("count", .num "3"), ("total", .num "45.5")] }]) "3" = true ∧
      LLMRouter.containsSub
        (AgentLoopEngine.fallbackToolSummary
          [{ toolName := "record_expenses_batch", success := true, message := "",
             data := [("count", .num "3"), ("total", .num "45.5")] }]) "45.5" = true ∧
      LLMRouter.containsSub
        (AgentRuntime.fallbackToolSummary
          [{ toolName := "record_expenses_batch", success := true, message := "",
             data := [("count", .num "3"), ("total", .num "45.5")] }]) "3" = true ∧
      LLMRouter.containsSub
        (AgentRuntime.fallbackToolSummary
          [{ toolName := "record_expenses_batch", success := true, message := "",
             data := [("count", .num "3"), ("total", .num "45.5")] }]) "45.5" = true) := by
  refine ⟨⟨rfl, rfl⟩, ?_, ?_, ?_, ?_, ?_, ?_, ?_, ?_, ?_, ?_,
    by decide, by decide, by decide, by decide⟩
  · intro rs h0 h1
    constructor <;>
      simp only [AgentLoopEngine.fallbackToolSummary, AgentRuntime.fallbackToolSummary,
        h0, h1, Bool.false_eq_true, if_false, List.isEmpty_nil, if_true]
  · intro rs last h0 h1 hB
    constructor <;>
      simp only [AgentLoopEngine.fallbackToolSummary, AgentRuntime.fallbackToolSummary,
        h0, h1, hB, Bool.false_eq_true, if_false]
  · intro rs last h0 h1 hB hS
    constructor <;>
      simp only [AgentLoopEngine.fallbackToolSummary, AgentRuntime.fallbackToolSummary,
        h0, h1, hB, hS, Bool.false_eq_true, if_false]
  · intro rs last h0 h1 hB hS hV
    constructor <;>
      simp only [AgentLoopEngine.fallbackToolSummary, AgentRuntime.fallbackToolSummary,
        h0, h1, hB, hS, hV, Bool.false_eq_true, if_false]
  · intro rs last h0 h1 hB hS hV hA
    constructor <;>
      simp only [AgentLoopEngine.fallbackToolSummary, AgentRuntime.fallbackToolSummary,
        h0, h1, hB, hS, hV, hA, Bool.false_eq_true, if_false]
  · intro rs last h0 h1 hB hS hV hA hD
    simp only [AgentLoopEngine.fallbackToolSummary, h0, h1, hB, hS, hV, hA, hD,
      Bool.false_eq_true, if_false]
  · intro rs last h0 h1 hB hS hV hA hD hG
    simp only [AgentLoopEngine.fallbackToolSummary, h0, h1, hB, hS, hV, hA, hD, hG,
      Bool.false_eq_true, if_false]
  · intro rs last h0 h1 hB hS hV hA hG
    simp only [AgentRuntime.fallbackToolSummary, h0, h1, hB, hS, hV, hA, hG,
      Bool.false_eq_true, if_false]
  · intro rs last h0 h1 hB hS hV hA hD hG hC
    simp only [AgentLoopEngine.fallbackToolSummary, h0, h1, hB, hS, hV, hA, hD, hG, hC,
      Bool.false_eq_true, if_false]
  · intro rs last h0 h1 hB hS hV hA hG hC
    simp only [AgentRuntime.fallbackToolSummary, h0, h1, hB, hS, hV, hA, hG, hC,
      Bool.false_eq_true, if_false]

/-- Witness for C5 (amended): one successful `record_expenses_batch` result
with `count=3, total=45.5` renders the batch template in both copies. -/
theorem c5_fallback_summary_priority_witness :
    AgentLoopEngine.fallbackToolSummary
        [{ toolName := "record_expenses_batch", success := true, message := "",
           data := [("count", .num "3"), ("total", .num "45.5")] }] =
      "✅ 批量记账成功\n• 笔数：3\n• 合计：45.5 元" ∧
    AgentRuntime.fallbackToolSummary
        [{ toolName := "record_expenses_batch", success := true, message := "",
           data := [("count", .num "3"), ("total", .num "45.5")] }] =
      "✅ 批量记账成功\n• 笔数：3\n• 合计：45.5 元" := by
  have h := c5_fallback_summary_priority.2.2.1
    [{ toolName := "record_expenses_batch", success := true, message := "",
       data := [("count", .num "3"), ("total", .num "45.5")] }]
    { toolName := "record_expenses_batch", success := true, message := "",
      data := [("count", .num "3"), ("total", .num "45.5")] }
    rfl rfl (by decide)
  exact ⟨h.1.trans (by decide), h.2.trans (by decide)⟩
